import Mathlib

/-!
# Book microservice: handlers of `server/main.go` over the messages of `booking.pb.go`

The four handlers `CreateBook`, `ReadBook`, `UpdateBook`, `DeleteBook` are embedded as
state-passing functions over a database handle.  The database handle (`database/sql` on top of
the PostgreSQL driver) is an interface record `DB`; `pg` is the reference semantics of the four
SQL statements of `main.go` on a table of book rows.
-/

namespace Booking

/-! ## Messages (`booking.pb.go`) -/

/-- The `Book` message: `Id` is `int64`, `Year`, `Price`, `Quantity` are `int32`,
`Genres` is `[]string` (the nil slice and the empty slice are both `[]`). -/
structure Book where
  Id : Int
  Title : String
  Author : String
  Year : Int
  Language : String
  Genres : List String
  Price : Int
  Quantity : Int
deriving DecidableEq, Repr

/-- The `CreateBookRequest` message; `Book` is a `*Book` and may be nil. -/
structure CreateBookRequest where
  Book : Option Book
deriving DecidableEq, Repr

/-- The `ReadBookRequest` message. -/
structure ReadBookRequest where
  Id : Int
deriving DecidableEq, Repr

/-- The `UpdateBookRequest` message; `Book` is a `*Book` and may be nil. -/
structure UpdateBookRequest where
  Id : Int
  Book : Option Book
deriving DecidableEq, Repr

/-- The `DeleteBookRequest` message. -/
structure DeleteBookRequest where
  Id : Int
deriving DecidableEq, Repr

/-- The `DeleteBookResponse` message. -/
structure DeleteBookResponse where
  Success : Bool
deriving DecidableEq, Repr

/-- Getter `(*CreateBookRequest).GetBook`: nil when the receiver is nil. -/
def CreateBookRequest.GetBook (x : Option CreateBookRequest) : Option Booking.Book :=
  match x with
  | some r => r.Book
  | none => none

/-- Getter `(*ReadBookRequest).GetId`: 0 when the receiver is nil. -/
def ReadBookRequest.GetId (x : Option ReadBookRequest) : Int :=
  match x with
  | some r => r.Id
  | none => 0

/-- Getter `(*UpdateBookRequest).GetId`: 0 when the receiver is nil. -/
def UpdateBookRequest.GetId (x : Option UpdateBookRequest) : Int :=
  match x with
  | some r => r.Id
  | none => 0

/-- Getter `(*UpdateBookRequest).GetBook`: nil when the receiver is nil. -/
def UpdateBookRequest.GetBook (x : Option UpdateBookRequest) : Option Booking.Book :=
  match x with
  | some r => r.Book
  | none => none

/-- Getter `(*DeleteBookRequest).GetId`: 0 when the receiver is nil. -/
def DeleteBookRequest.GetId (x : Option DeleteBookRequest) : Int :=
  match x with
  | some r => r.Id
  | none => 0

/-! ## Errors -/

/-- What the driver reports for a statement it could not carry out: the server could not be
reached (connection, cancelled context), or the server rejected the statement. -/
inductive DriverError where
  | unreachable (msg : String)
  | rejected (code : String) (msg : String)
deriving DecidableEq, Repr

/-- Go `error` values the handlers can return: `sql.ErrNoRows`, the two errors of
`(*sql.Row).Scan` (wrong number of destinations, a column that cannot be stored into its
destination), and a driver error. -/
inductive GoError where
  | ErrNoRows
  | ScanArgs (dests : Nat) (columns : Nat)
  | ScanError (column : Nat)
  | Driver (e : DriverError)
deriving DecidableEq, Repr

/-- The error kinds named by the specification. -/
inductive ErrorKind where
  | MalformedMessage
  | NotFound
  | ConstraintViolation
  | StorageUnavailable
deriving DecidableEq, Repr

/-- The kind of a storage failure, in the specification's vocabulary: no row for the identity is
`NotFound`, an unreachable storage is `StorageUnavailable`, a statement the storage rejects is
`ConstraintViolation`.  The errors of `Scan` are not failures of the storage and have no kind. -/
def GoError.kind : GoError → Option ErrorKind
  | .ErrNoRows => some .NotFound
  | .Driver (.unreachable _) => some .StorageUnavailable
  | .Driver (.rejected _ _) => some .ConstraintViolation
  | .ScanArgs _ _ => none
  | .ScanError _ => none

/-- What a handler returns: `(resp, nil)`, `(nil, err)`, or a run-time panic. -/
inductive Outcome (α : Type) where
  | ok (resp : α)
  | err (e : GoError)
  | panic
deriving DecidableEq, Repr

/-! ## The database handle -/

/-- A `driver.Value` as the handlers exchange it with the driver: NULL, an `int64`, a `string`,
or the `[]byte` holding a `text[]` value (kept as its elements; `arrayOut` is its text). -/
inductive Value where
  | null
  | int64 (n : Int)
  | string (s : String)
  | array (elems : List String)
deriving DecidableEq, Repr

/-- The four SQL statements of `main.go`, in the order of the handlers:
`INSERT INTO books (title, author, year, language, genres, price, quantity)
 VALUES ($1, $2, $3, $4, $5, $6, $7) RETURNING id`,
`SELECT id, title, author, year, language, genres, price, quantity FROM books WHERE id = $1`,
`UPDATE books SET title = $1, author = $2, year = $3, language = $4, genres = $5, price = $6,
 quantity = $7 WHERE id = $8 RETURNING id`,
`DELETE FROM books WHERE id = $1`. -/
inductive Statement where
  | insertBook
  | selectBook
  | updateBook
  | deleteBook
deriving DecidableEq, Repr

/-- A `*sql.Row`: the driver's error, or the first row of the result if there is one. -/
abbrev Row := Except DriverError (Option (List Value))

/-- The `*sql.DB` handle over a storage state `σ`: `QueryRowContext` and `ExecContext` (which
yields the number of rows affected), each with the statement and its positional arguments. -/
structure DB (σ : Type) where
  QueryRowContext : σ → Statement → List Value → Row × σ
  ExecContext : σ → Statement → List Value → Except DriverError Nat × σ

/-- The same handle, keeping a log of the statements issued. -/
def DB.traced {σ : Type} (db : DB σ) : DB (σ × List (Statement × List Value)) where
  QueryRowContext := fun st q args =>
    ((db.QueryRowContext st.1 q args).1, (db.QueryRowContext st.1 q args).2, st.2 ++ [(q, args)])
  ExecContext := fun st q args =>
    ((db.ExecContext st.1 q args).1, (db.ExecContext st.1 q args).2, st.2 ++ [(q, args)])

/-! ## `pgtype.TextArray` -/

/-- Status of a `pgtype.TextArray` after `Set` (the initial `Undefined` is always overwritten). -/
inductive Status where
  | Null
  | Present
deriving DecidableEq, Repr

/-- The `pgtype.TextArray` value built from a `[]string`. -/
structure TextArray where
  Elements : List String
  Status : Status
deriving DecidableEq, Repr

/-- The method `(*pgtype.TextArray).Set` on a `[]string`: the nil slice gives a NULL array, any
other slice an array of its elements in order; no `[]string` is refused. -/
def TextArray.Set (src : List String) : Except GoError TextArray :=
  match src with
  | [] => .ok { Elements := [], Status := .Null }
  | x :: xs => .ok { Elements := x :: xs, Status := .Present }

/-- The method `Value` of `driver.Valuer`: what the array is as a statement argument. -/
def TextArray.Value (a : TextArray) : Value :=
  match a.Status with
  | .Null => .null
  | .Present => .array a.Elements

/-! ## `(*sql.Row).Scan` -/

/-- Whether an element of a `text[]` is quoted in the array's text form. -/
def needsQuote (s : String) : Bool :=
  s.isEmpty || s.toLower == "null" ||
    s.any (fun c => c == '"' || c == '\\' || c == ',' || c == ' ' || c.toNat == 123 ||
      c.toNat == 125 || c.isWhitespace)

/-- One element of a `text[]` in the array's text form. -/
def quoteElem (s : String) : String :=
  if needsQuote s then
    "\"" ++ String.join (s.toList.map (fun c =>
      if c == '"' || c == '\\' then "\\" ++ c.toString else c.toString)) ++ "\""
  else s

/-- The text form of a `text[]` value. -/
def arrayOut (elems : List String) : String :=
  String.singleton (Char.ofNat 123) ++ String.intercalate "," (elems.map quoteElem) ++
    String.singleton (Char.ofNat 125)

/-- The digits of a decimal numeral, most significant first. -/
def digitsValue (cs : List Char) : Option Nat :=
  cs.foldl (fun acc c =>
    match acc with
    | none => none
    | some n => if c.isDigit then some (10 * n + (c.toNat - 48)) else none) (some 0)

/-- Base 10 `strconv.ParseInt` (without the range check): an optional sign and at least one
digit. -/
def parseInt (s : String) : Option Int :=
  match s.toList with
  | [] => none
  | '-' :: [] => none
  | '+' :: [] => none
  | '-' :: cs => (digitsValue cs).map (fun n => - (n : Int))
  | '+' :: cs => (digitsValue cs).map (fun n => (n : Int))
  | cs => (digitsValue cs).map (fun n => (n : Int))

/-- A column as the text `database/sql` converts through. -/
def asString : Value → Option String
  | .null => none
  | .int64 n => some (toString n)
  | .string s => some s
  | .array elems => some (arrayOut elems)

/-- Storing a column into a `*int64` destination. -/
def convertInt64 (v : Value) : Option Int :=
  match v with
  | .int64 n => some n
  | _ => (asString v).bind (fun s =>
      (parseInt s).bind (fun n => if -(2:Int)^63 ≤ n ∧ n < (2:Int)^63 then some n else none))

/-- Storing a column into a `*int32` destination: the value has to fit 32 bits. -/
def convertInt32 (v : Value) : Option Int :=
  ((match v with
    | .int64 n => some n
    | _ => (asString v).bind parseInt) : Option Int).bind
    (fun n => if -(2:Int)^31 ≤ n ∧ n < (2:Int)^31 then some n else none)

/-- Storing a column into a `*string` destination. -/
def convertString (v : Value) : Option String :=
  asString v

/-- Storing a column into a `*[]string` destination: `database/sql` has no conversion from a
`driver.Value` into a slice of strings (a `sql.Scanner` wrapper such as a `pgtype.TextArray`
would be needed), so every column is refused with `unsupported Scan`. -/
def convertStringSlice (_v : Value) : Option (List String) :=
  none

/-- The columns `Scan` works on: the row's deferred error, `sql.ErrNoRows` when the result has
no row, and the check of the number of destinations against the number of columns. -/
def Row.columns (r : Row) (dests : Nat) : Except GoError (List Value) :=
  match r with
  | .error e => .error (.Driver e)
  | .ok none => .error .ErrNoRows
  | .ok (some cols) => if cols.length = dests then .ok cols else .error (.ScanArgs dests cols.length)

/-- Storing column `i` into its destination; a refused conversion is a Scan error on column `i`. -/
def assign {α : Type} (conv : Value → Option α) (cols : List Value) (i : Nat) : Except GoError α :=
  match conv (cols.getD i .null) with
  | some a => .ok a
  | none => .error (.ScanError i)

/-- The call `.Scan(&id)` of `CreateBook` and `UpdateBook`, `id` an `int64`. -/
def scanId (r : Row) : Except GoError Int := do
  let cols ← r.columns 1
  assign convertInt64 cols 0

/-- The call `row.Scan(&book.Id, &book.Title, &book.Author, &book.Year, &book.Language,
&book.Genres, &book.Price, &book.Quantity)` of `ReadBook`, the destinations taken in order. -/
def scanBook (r : Row) : Except GoError Book := do
  let cols ← r.columns 8
  let id ← assign convertInt64 cols 0
  let title ← assign convertString cols 1
  let author ← assign convertString cols 2
  let year ← assign convertInt32 cols 3
  let language ← assign convertString cols 4
  let genres ← assign convertStringSlice cols 5
  let price ← assign convertInt32 cols 6
  let quantity ← assign convertInt32 cols 7
  pure { Id := id, Title := title, Author := author, Year := year, Language := language,
         Genres := genres, Price := price, Quantity := quantity }

/-! ## The handlers (`server/main.go`) -/

/-- The handler `CreateBook`: `book.Genres` on the nil `*Book` of a request without a book is a
nil pointer dereference; a failed `Set` or a failed `Scan(&id)` is returned as it is; otherwise
the book of the request is returned with `Id` set to the identity scanned. -/
def CreateBook {σ : Type} (db : DB σ) (s : σ) (req : Option CreateBookRequest) :
    Outcome Book × σ :=
  match CreateBookRequest.GetBook req with
  | none => (.panic, s)
  | some book =>
    match TextArray.Set book.Genres with
    | .error e => (.err e, s)
    | .ok genresArray =>
      let r := db.QueryRowContext s .insertBook
        [.string book.Title, .string book.Author, .int64 book.Year, .string book.Language,
         genresArray.Value, .int64 book.Price, .int64 book.Quantity]
      match scanId r.1 with
      | .error e => (.err e, r.2)
      | .ok id => (.ok { book with Id := id }, r.2)

/-- The handler `ReadBook`: the row of the lookup is scanned into the eight fields of a new
`Book`; the error of `Scan` is returned as it is. -/
def ReadBook {σ : Type} (db : DB σ) (s : σ) (req : Option ReadBookRequest) :
    Outcome Book × σ :=
  let bookID := ReadBookRequest.GetId req
  let r := db.QueryRowContext s .selectBook [.int64 bookID]
  match scanBook r.1 with
  | .error e => (.err e, r.2)
  | .ok book => (.ok book, r.2)

/-- The handler `UpdateBook`: as `CreateBook`, with the update statement keyed by the `Id` of the
request as its eighth argument. -/
def UpdateBook {σ : Type} (db : DB σ) (s : σ) (req : Option UpdateBookRequest) :
    Outcome Book × σ :=
  let bookID := UpdateBookRequest.GetId req
  match UpdateBookRequest.GetBook req with
  | none => (.panic, s)
  | some updatedBook =>
    match TextArray.Set updatedBook.Genres with
    | .error e => (.err e, s)
    | .ok genresArray =>
      let r := db.QueryRowContext s .updateBook
        [.string updatedBook.Title, .string updatedBook.Author, .int64 updatedBook.Year,
         .string updatedBook.Language, genresArray.Value, .int64 updatedBook.Price,
         .int64 updatedBook.Quantity, .int64 bookID]
      match scanId r.1 with
      | .error e => (.err e, r.2)
      | .ok id => (.ok { updatedBook with Id := id }, r.2)

/-- The handler `DeleteBook`: the result of `ExecContext` is dropped; its error is returned as
it is, and `DeleteBookResponse{Success: true}` otherwise. -/
def DeleteBook {σ : Type} (db : DB σ) (s : σ) (req : Option DeleteBookRequest) :
    Outcome DeleteBookResponse × σ :=
  let bookID := DeleteBookRequest.GetId req
  let r := db.ExecContext s .deleteBook [.int64 bookID]
  match r.1 with
  | .error e => (.err (.Driver e), r.2)
  | .ok _ => (.ok { Success := true }, r.2)

/-! ## Reference semantics of the four statements on a table of book rows -/

/-- A row of table `books`; `genres` is a `text[]` column and may be NULL. -/
structure Record where
  id : Int
  title : String
  author : String
  year : Int
  language : String
  genres : Option (List String)
  price : Int
  quantity : Int
deriving DecidableEq, Repr

/-- The table `books` with the sequence that assigns `id`. -/
structure Table where
  rows : List Record
  nextId : Int
deriving DecidableEq, Repr

/-- A text argument. -/
def textArg : Value → Option String
  | .string s => some s
  | _ => none

/-- An integer argument. -/
def intArg : Value → Option Int
  | .int64 n => some n
  | _ => none

/-- A `text[]` argument: NULL or an array. -/
def arrayArg : Value → Option (Option (List String))
  | .null => some none
  | .array elems => some (some elems)
  | _ => none

/-- The row that `(title, author, year, language, genres, price, quantity) VALUES ($1 .. $7)`
makes of seven arguments, the columns taken in the order of the statement. -/
def recordOf (id : Int) (args : List Value) : Option Record :=
  match args with
  | [a1, a2, a3, a4, a5, a6, a7] => do
    let title ← textArg a1
    let author ← textArg a2
    let year ← intArg a3
    let language ← textArg a4
    let genres ← arrayArg a5
    let price ← intArg a6
    let quantity ← intArg a7
    pure { id := id, title := title, author := author, year := year, language := language,
           genres := genres, price := price, quantity := quantity }
  | _ => none

/-- The columns `id, title, author, year, language, genres, price, quantity` of a row, as the
driver returns them. -/
def Record.columns (r : Record) : List Value :=
  [.int64 r.id, .string r.title, .string r.author, .int64 r.year, .string r.language,
   (match r.genres with
    | none => .null
    | some elems => .array elems),
   .int64 r.price, .int64 r.quantity]

/-- The error of the server for arguments that do not fit the statement. -/
def badArguments : DriverError :=
  .rejected "08P01" "arguments do not fit the statement"

/-- One statement on the table: the rows it returns, the number of rows it affected, and the
table afterwards. -/
def pgRun (t : Table) (q : Statement) (args : List Value) :
    Except DriverError (List (List Value) × Nat) × Table :=
  match q with
  | .insertBook =>
    match recordOf t.nextId args with
    | some r => (.ok ([[.int64 r.id]], 1), { rows := t.rows ++ [r], nextId := t.nextId + 1 })
    | none => (.error badArguments, t)
  | .selectBook =>
    match args with
    | [.int64 id] =>
      (.ok (((t.rows.filter (fun r => r.id = id)).map Record.columns),
            (t.rows.filter (fun r => r.id = id)).length), t)
    | _ => (.error badArguments, t)
  | .updateBook =>
    match args with
    | [a1, a2, a3, a4, a5, a6, a7, .int64 id] =>
      match recordOf id [a1, a2, a3, a4, a5, a6, a7] with
      | some r =>
        (.ok (((t.rows.filter (fun x => x.id = id)).map (fun x => [.int64 x.id])),
              (t.rows.filter (fun x => x.id = id)).length),
         { t with rows := t.rows.map (fun x => if x.id = id then r else x) })
      | none => (.error badArguments, t)
    | _ => (.error badArguments, t)
  | .deleteBook =>
    match args with
    | [.int64 id] =>
      (.ok ([], (t.rows.filter (fun r => r.id = id)).length),
       { t with rows := t.rows.filter (fun r => ¬ r.id = id) })
    | _ => (.error badArguments, t)

/-- The handle on the table: `QueryRowContext` keeps the first row returned, `ExecContext` the
number of rows affected. -/
def pg : DB Table where
  QueryRowContext := fun t q args =>
    ((match (pgRun t q args).1 with
      | .ok res => .ok res.1.head?
      | .error e => .error e),
     (pgRun t q args).2)
  ExecContext := fun t q args =>
    ((match (pgRun t q args).1 with
      | .ok res => .ok res.2
      | .error e => .error e),
     (pgRun t q args).2)

/-- A storage that cannot be reached: every statement fails and nothing changes. -/
def downDB : DB Unit where
  QueryRowContext := fun s _ _ => (.error (.unreachable "connection refused"), s)
  ExecContext := fun s _ _ => (.error (.unreachable "connection refused"), s)

/-- A storage that carries out every statement on no row: a query returns no row, an exec
affects zero rows. -/
def emptyDB : DB Unit where
  QueryRowContext := fun s _ _ => (.ok none, s)
  ExecContext := fun s _ _ => (.ok 0, s)

/-- A book with every field set. -/
def dune : Book :=
  { Id := 0, Title := "Dune", Author := "Herbert", Year := 1965, Language := "en",
    Genres := ["sci-fi", "classic"], Price := 999, Quantity := 3 }

/-- The row of `dune` under identity 1. -/
def duneRecord : Record :=
  { id := 1, title := "Dune", author := "Herbert", year := 1965, language := "en",
    genres := some ["sci-fi", "classic"], price := 999, quantity := 3 }

/-- The empty table. -/
def emptyTable : Table :=
  { rows := [], nextId := 1 }


/-! ## The file descriptor embedded in `booking.pb.go` -/

/-- The bytes of `file_booking_proto_rawDesc`. -/
def file_booking_proto_rawDesc : List Nat :=
  [
   0x0a, 0x0d, 0x62, 0x6f, 0x6f, 0x6b, 0x69, 0x6e, 0x67, 0x2e, 0x70, 0x72, 0x6f, 0x74, 0x6f, 0x12,
   0x07, 0x62, 0x6f, 0x6f, 0x6b, 0x69, 0x6e, 0x67, 0x1a, 0x1c, 0x67, 0x6f, 0x6f, 0x67, 0x6c, 0x65,
   0x2f, 0x61, 0x70, 0x69, 0x2f, 0x61, 0x6e, 0x6e, 0x6f, 0x74, 0x61, 0x74, 0x69, 0x6f, 0x6e, 0x73,
   0x2e, 0x70, 0x72, 0x6f, 0x74, 0x6f, 0x22, 0xbe, 0x01, 0x0a, 0x04, 0x42, 0x6f, 0x6f, 0x6b, 0x12,
   0x0e, 0x0a, 0x02, 0x69, 0x64, 0x18, 0x01, 0x20, 0x01, 0x28, 0x03, 0x52, 0x02, 0x69, 0x64, 0x12,
   0x14, 0x0a, 0x05, 0x74, 0x69, 0x74, 0x6c, 0x65, 0x18, 0x02, 0x20, 0x01, 0x28, 0x09, 0x52, 0x05,
   0x74, 0x69, 0x74, 0x6c, 0x65, 0x12, 0x16, 0x0a, 0x06, 0x61, 0x75, 0x74, 0x68, 0x6f, 0x72, 0x18,
   0x03, 0x20, 0x01, 0x28, 0x09, 0x52, 0x06, 0x61, 0x75, 0x74, 0x68, 0x6f, 0x72, 0x12, 0x12, 0x0a,
   0x04, 0x79, 0x65, 0x61, 0x72, 0x18, 0x04, 0x20, 0x01, 0x28, 0x05, 0x52, 0x04, 0x79, 0x65, 0x61,
   0x72, 0x12, 0x1a, 0x0a, 0x08, 0x6c, 0x61, 0x6e, 0x67, 0x75, 0x61, 0x67, 0x65, 0x18, 0x05, 0x20,
   0x01, 0x28, 0x09, 0x52, 0x08, 0x6c, 0x61, 0x6e, 0x67, 0x75, 0x61, 0x67, 0x65, 0x12, 0x16, 0x0a,
   0x06, 0x67, 0x65, 0x6e, 0x72, 0x65, 0x73, 0x18, 0x06, 0x20, 0x03, 0x28, 0x09, 0x52, 0x06, 0x67,
   0x65, 0x6e, 0x72, 0x65, 0x73, 0x12, 0x14, 0x0a, 0x05, 0x70, 0x72, 0x69, 0x63, 0x65, 0x18, 0x07,
   0x20, 0x01, 0x28, 0x05, 0x52, 0x05, 0x70, 0x72, 0x69, 0x63, 0x65, 0x12, 0x1a, 0x0a, 0x08, 0x71,
   0x75, 0x61, 0x6e, 0x74, 0x69, 0x74, 0x79, 0x18, 0x08, 0x20, 0x01, 0x28, 0x05, 0x52, 0x08, 0x71,
   0x75, 0x61, 0x6e, 0x74, 0x69, 0x74, 0x79, 0x22, 0x36, 0x0a, 0x11, 0x43, 0x72, 0x65, 0x61, 0x74,
   0x65, 0x42, 0x6f, 0x6f, 0x6b, 0x52, 0x65, 0x71, 0x75, 0x65, 0x73, 0x74, 0x12, 0x21, 0x0a, 0x04,
   0x62, 0x6f, 0x6f, 0x6b, 0x18, 0x01, 0x20, 0x01, 0x28, 0x0b, 0x32, 0x0d, 0x2e, 0x62, 0x6f, 0x6f,
   0x6b, 0x69, 0x6e, 0x67, 0x2e, 0x42, 0x6f, 0x6f, 0x6b, 0x52, 0x04, 0x62, 0x6f, 0x6f, 0x6b, 0x22,
   0x21, 0x0a, 0x0f, 0x52, 0x65, 0x61, 0x64, 0x42, 0x6f, 0x6f, 0x6b, 0x52, 0x65, 0x71, 0x75, 0x65,
   0x73, 0x74, 0x12, 0x0e, 0x0a, 0x02, 0x69, 0x64, 0x18, 0x01, 0x20, 0x01, 0x28, 0x03, 0x52, 0x02,
   0x69, 0x64, 0x22, 0x46, 0x0a, 0x11, 0x55, 0x70, 0x64, 0x61, 0x74, 0x65, 0x42, 0x6f, 0x6f, 0x6b,
   0x52, 0x65, 0x71, 0x75, 0x65, 0x73, 0x74, 0x12, 0x0e, 0x0a, 0x02, 0x69, 0x64, 0x18, 0x01, 0x20,
   0x01, 0x28, 0x03, 0x52, 0x02, 0x69, 0x64, 0x12, 0x21, 0x0a, 0x04, 0x62, 0x6f, 0x6f, 0x6b, 0x18,
   0x02, 0x20, 0x01, 0x28, 0x0b, 0x32, 0x0d, 0x2e, 0x62, 0x6f, 0x6f, 0x6b, 0x69, 0x6e, 0x67, 0x2e,
   0x42, 0x6f, 0x6f, 0x6b, 0x52, 0x04, 0x62, 0x6f, 0x6f, 0x6b, 0x22, 0x23, 0x0a, 0x11, 0x44, 0x65,
   0x6c, 0x65, 0x74, 0x65, 0x42, 0x6f, 0x6f, 0x6b, 0x52, 0x65, 0x71, 0x75, 0x65, 0x73, 0x74, 0x12,
   0x0e, 0x0a, 0x02, 0x69, 0x64, 0x18, 0x01, 0x20, 0x01, 0x28, 0x03, 0x52, 0x02, 0x69, 0x64, 0x22,
   0x2e, 0x0a, 0x12, 0x44, 0x65, 0x6c, 0x65, 0x74, 0x65, 0x42, 0x6f, 0x6f, 0x6b, 0x52, 0x65, 0x73,
   0x70, 0x6f, 0x6e, 0x73, 0x65, 0x12, 0x18, 0x0a, 0x07, 0x73, 0x75, 0x63, 0x63, 0x65, 0x73, 0x73,
   0x18, 0x01, 0x20, 0x01, 0x28, 0x08, 0x52, 0x07, 0x73, 0x75, 0x63, 0x63, 0x65, 0x73, 0x73, 0x32,
   0xd3, 0x02, 0x0a, 0x0e, 0x42, 0x6f, 0x6f, 0x6b, 0x69, 0x6e, 0x67, 0x53, 0x65, 0x72, 0x76, 0x69,
   0x63, 0x65, 0x12, 0x4a, 0x0a, 0x0a, 0x43, 0x72, 0x65, 0x61, 0x74, 0x65, 0x42, 0x6f, 0x6f, 0x6b,
   0x12, 0x1a, 0x2e, 0x62, 0x6f, 0x6f, 0x6b, 0x69, 0x6e, 0x67, 0x2e, 0x43, 0x72, 0x65, 0x61, 0x74,
   0x65, 0x42, 0x6f, 0x6f, 0x6b, 0x52, 0x65, 0x71, 0x75, 0x65, 0x73, 0x74, 0x1a, 0x0d, 0x2e, 0x62,
   0x6f, 0x6f, 0x6b, 0x69, 0x6e, 0x67, 0x2e, 0x42, 0x6f, 0x6f, 0x6b, 0x22, 0x11, 0x82, 0xd3, 0xe4,
   0x93, 0x02, 0x0b, 0x3a, 0x01, 0x2a, 0x22, 0x06, 0x2f, 0x62, 0x6f, 0x6f, 0x6b, 0x73, 0x12, 0x48,
   0x0a, 0x08, 0x52, 0x65, 0x61, 0x64, 0x42, 0x6f, 0x6f, 0x6b, 0x12, 0x18, 0x2e, 0x62, 0x6f, 0x6f,
   0x6b, 0x69, 0x6e, 0x67, 0x2e, 0x52, 0x65, 0x61, 0x64, 0x42, 0x6f, 0x6f, 0x6b, 0x52, 0x65, 0x71,
   0x75, 0x65, 0x73, 0x74, 0x1a, 0x0d, 0x2e, 0x62, 0x6f, 0x6f, 0x6b, 0x69, 0x6e, 0x67, 0x2e, 0x42,
   0x6f, 0x6f, 0x6b, 0x22, 0x13, 0x82, 0xd3, 0xe4, 0x93, 0x02, 0x0d, 0x12, 0x0b, 0x2f, 0x62, 0x6f,
   0x6f, 0x6b, 0x73, 0x2f, 0x7b, 0x69, 0x64, 0x7d, 0x12, 0x4f, 0x0a, 0x0a, 0x55, 0x70, 0x64, 0x61,
   0x74, 0x65, 0x42, 0x6f, 0x6f, 0x6b, 0x12, 0x1a, 0x2e, 0x62, 0x6f, 0x6f, 0x6b, 0x69, 0x6e, 0x67,
   0x2e, 0x55, 0x70, 0x64, 0x61, 0x74, 0x65, 0x42, 0x6f, 0x6f, 0x6b, 0x52, 0x65, 0x71, 0x75, 0x65,
   0x73, 0x74, 0x1a, 0x0d, 0x2e, 0x62, 0x6f, 0x6f, 0x6b, 0x69, 0x6e, 0x67, 0x2e, 0x42, 0x6f, 0x6f,
   0x6b, 0x22, 0x16, 0x82, 0xd3, 0xe4, 0x93, 0x02, 0x10, 0x3a, 0x01, 0x2a, 0x1a, 0x0b, 0x2f, 0x62,
   0x6f, 0x6f, 0x6b, 0x73, 0x2f, 0x7b, 0x69, 0x64, 0x7d, 0x12, 0x5a, 0x0a, 0x0a, 0x44, 0x65, 0x6c,
   0x65, 0x74, 0x65, 0x42, 0x6f, 0x6f, 0x6b, 0x12, 0x1a, 0x2e, 0x62, 0x6f, 0x6f, 0x6b, 0x69, 0x6e,
   0x67, 0x2e, 0x44, 0x65, 0x6c, 0x65, 0x74, 0x65, 0x42, 0x6f, 0x6f, 0x6b, 0x52, 0x65, 0x71, 0x75,
   0x65, 0x73, 0x74, 0x1a, 0x1b, 0x2e, 0x62, 0x6f, 0x6f, 0x6b, 0x69, 0x6e, 0x67, 0x2e, 0x44, 0x65,
   0x6c, 0x65, 0x74, 0x65, 0x42, 0x6f, 0x6f, 0x6b, 0x52, 0x65, 0x73, 0x70, 0x6f, 0x6e, 0x73, 0x65,
   0x22, 0x13, 0x82, 0xd3, 0xe4, 0x93, 0x02, 0x0d, 0x2a, 0x0b, 0x2f, 0x62, 0x6f, 0x6f, 0x6b, 0x73,
   0x2f, 0x7b, 0x69, 0x64, 0x7d, 0x42, 0x08, 0x5a, 0x06, 0x2e, 0x2f, 0x74, 0x65, 0x73, 0x74, 0x62,
   0x06, 0x70, 0x72, 0x6f, 0x74, 0x6f, 0x33
  ]

/-- The Go types of `file_booking_proto_goTypes`, by index. -/
def file_booking_proto_goTypes : List String :=
  ["Book", "CreateBookRequest", "ReadBookRequest", "UpdateBookRequest", "DeleteBookRequest",
   "DeleteBookResponse"]

/-- The indices of `file_booking_proto_depIdxs`; the last five entries are the starts of the
sub-lists (method output types, method input types, extension type names, extension
extendees, field type names). -/
def file_booking_proto_depIdxs : List Nat :=
  [0, 0, 1, 2, 3, 4, 0, 0, 0, 5, 6, 2, 2, 2, 0]

/-- A value of the wire format, by wire type: varint, 64-bit, length-delimited, 32-bit. -/
inductive WireValue where
  | varint (n : Nat)
  | i64 (bytes : List Nat)
  | len (bytes : List Nat)
  | i32 (bytes : List Nat)
deriving DecidableEq, Repr

/-- A base 128 varint, least significant group first, of at most `fuel` bytes; with the value,
the bytes that follow it. -/
def readVarint : Nat → List Nat → Option (Nat × List Nat)
  | 0, _ => none
  | _ + 1, [] => none
  | fuel + 1, c :: rest =>
    if c < 128 then some (c, rest)
    else
      match readVarint fuel rest with
      | some (n, rest') => some (c % 128 + 128 * n, rest')
      | none => none

/-- One field of a message: its number and value, and the bytes that follow it. -/
def readField (bs : List Nat) : Option ((Nat × WireValue) × List Nat) :=
  match readVarint 10 bs with
  | none => none
  | some (tag, rest) =>
    if tag % 8 = 0 then
      match readVarint 10 rest with
      | some (n, rest') => some ((tag / 8, .varint n), rest')
      | none => none
    else if tag % 8 = 1 then
      if rest.length < 8 then none else some ((tag / 8, .i64 (rest.take 8)), rest.drop 8)
    else if tag % 8 = 2 then
      match readVarint 10 rest with
      | some (n, rest') =>
        if rest'.length < n then none else some ((tag / 8, .len (rest'.take n)), rest'.drop n)
      | none => none
    else if tag % 8 = 5 then
      if rest.length < 4 then none else some ((tag / 8, .i32 (rest.take 4)), rest.drop 4)
    else none

/-- The fields of a message, in the order of the bytes; `fuel` bounds their number. -/
def readFields : Nat → List Nat → Option (List (Nat × WireValue))
  | _, [] => some []
  | 0, _ :: _ => none
  | fuel + 1, b :: bs =>
    match readField (b :: bs) with
    | none => none
    | some (f, rest) =>
      match readFields fuel rest with
      | some fs => some (f :: fs)
      | none => none

/-- The fields of a message. -/
def readMessage (bs : List Nat) : Option (List (Nat × WireValue)) :=
  readFields bs.length bs

/-- The length-delimited values of field `k`, in order. -/
def lenFields (k : Nat) (m : List (Nat × WireValue)) : List (List Nat) :=
  m.filterMap (fun f =>
    match f.2 with
    | .len b => if f.1 = k then some b else none
    | _ => none)

/-- The text of a string field. -/
def text (b : List Nat) : String :=
  String.mk (b.map Char.ofNat)

/-- The string field `k` of a message: its last occurrence, empty when there is none. -/
def stringField (k : Nat) (m : List (Nat × WireValue)) : String :=
  match (lenFields k m).getLast? with
  | some b => text b
  | none => ""

/-- The HTTP binding of a method (`google.api.HttpRule`): verb, path template and body. -/
structure HttpRule where
  verb : String
  path : String
  body : String
deriving DecidableEq, Repr

/-- A method of a service with its request and response message and its HTTP binding. -/
structure MethodDescriptor where
  name : String
  inputType : String
  outputType : String
  http : Option HttpRule
deriving DecidableEq, Repr

/-- A service with its methods in order. -/
structure ServiceDescriptor where
  name : String
  methods : List MethodDescriptor
deriving DecidableEq, Repr

/-- The pattern of an `HttpRule`: field 2 is `get`, 3 `put`, 4 `post`, 5 `delete`, 6 `patch`. -/
def httpPattern (f : Nat × WireValue) : Option (String × String) :=
  match f.2 with
  | .len b =>
    if f.1 = 2 then some ("GET", text b)
    else if f.1 = 3 then some ("PUT", text b)
    else if f.1 = 4 then some ("POST", text b)
    else if f.1 = 5 then some ("DELETE", text b)
    else if f.1 = 6 then some ("PATCH", text b)
    else none
  | _ => none

/-- An `HttpRule` from its bytes; field 7 is `body`. -/
def readHttpRule (bs : List Nat) : Option HttpRule :=
  match readMessage bs with
  | none => none
  | some m =>
    match (m.filterMap httpPattern).getLast? with
    | some p => some { verb := p.1, path := p.2, body := stringField 7 m }
    | none => none

/-- The `google.api.http` option (extension 72295728) of a `MethodOptions` message. -/
def readHttpOption (bs : List Nat) : Option HttpRule :=
  match readMessage bs with
  | none => none
  | some m =>
    match (lenFields 72295728 m).getLast? with
    | some b => readHttpRule b
    | none => none

/-- A `MethodDescriptorProto`: name 1, input type 2, output type 3, options 4. -/
def readMethod (bs : List Nat) : Option MethodDescriptor :=
  match readMessage bs with
  | none => none
  | some m =>
    some { name := stringField 1 m, inputType := stringField 2 m, outputType := stringField 3 m,
           http := (match (lenFields 4 m).getLast? with
             | some o => readHttpOption o
             | none => none) }

/-- A `ServiceDescriptorProto`: name 1, methods 2. -/
def readService (bs : List Nat) : Option ServiceDescriptor :=
  match readMessage bs with
  | none => none
  | some m =>
    match ((lenFields 2 m).map readMethod).allSome with
    | some ms => some { name := stringField 1 m, methods := ms }
    | none => none

/-- The services of a `FileDescriptorProto` (field 6). -/
def readServices (bs : List Nat) : Option (List ServiceDescriptor) :=
  match readMessage bs with
  | none => none
  | some m => ((lenFields 6 m).map readService).allSome

/-- The names of the messages of a `FileDescriptorProto` (field 4, name 1), in order. -/
def readMessageNames (bs : List Nat) : Option (List String) :=
  match readMessage bs with
  | none => none
  | some m => ((lenFields 4 m).map (fun b => (readMessage b).map (stringField 1))).allSome

/-- The Go types of the requests of the methods, by `file_booking_proto_depIdxs`. -/
def methodInputGoTypes : List String :=
  ((file_booking_proto_depIdxs.drop (file_booking_proto_depIdxs.getD 11 0)).take
      (file_booking_proto_depIdxs.getD 10 0 - file_booking_proto_depIdxs.getD 11 0)).map
    (fun i => file_booking_proto_goTypes.getD i "")

/-- The Go types of the responses of the methods, by `file_booking_proto_depIdxs`. -/
def methodOutputGoTypes : List String :=
  ((file_booking_proto_depIdxs.drop (file_booking_proto_depIdxs.getD 10 0)).take
      (file_booking_proto_depIdxs.length - 5 - file_booking_proto_depIdxs.getD 10 0)).map
    (fun i => file_booking_proto_goTypes.getD i "")

/-! ## The wire encoding of `Book` -/

/-- Modelled from the spec: the base 128 varint of `n`, least significant group first, of at
most `fuel + 1` bytes (the writer of the codec is not in the repository). -/
def writeVarintAux : Nat → Nat → List Nat
  | 0, n => [n % 128]
  | fuel + 1, n => if n < 128 then [n] else (n % 128 + 128) :: writeVarintAux fuel (n / 128)

/-- Modelled from the spec: the varint of a 64-bit value, at most ten bytes (the writer of the
codec is not in the repository). -/
def writeVarint (n : Nat) : List Nat :=
  writeVarintAux 9 n

/-- Modelled from the spec: the bytes of one field, the tag `number * 8 + wire type` as a
varint, then the value, a length-delimited value behind its length (the writer of the codec is
not in the repository). -/
def writeField (f : Nat × WireValue) : List Nat :=
  match f.2 with
  | .varint n => writeVarint (f.1 * 8) ++ writeVarint n
  | .i64 b => writeVarint (f.1 * 8 + 1) ++ b
  | .len b => writeVarint (f.1 * 8 + 2) ++ (writeVarint b.length ++ b)
  | .i32 b => writeVarint (f.1 * 8 + 5) ++ b

/-- Modelled from the spec: the bytes of the fields of a message, one after the other (the
writer of the codec is not in the repository). -/
def writeFields : List (Nat × WireValue) → List Nat
  | [] => []
  | f :: fs => writeField f ++ writeFields fs

/-- Modelled from the spec: the UTF-8 bytes of a character (the codec of text is not in the
repository). -/
def utf8EncodeChar (c : Char) : List Nat :=
  if c.toNat < 128 then [c.toNat]
  else if c.toNat < 2048 then [192 + c.toNat / 64, 128 + c.toNat % 64]
  else if c.toNat < 65536 then
    [224 + c.toNat / 4096, 128 + c.toNat / 64 % 64, 128 + c.toNat % 64]
  else [240 + c.toNat / 262144, 128 + c.toNat / 4096 % 64, 128 + c.toNat / 64 % 64,
        128 + c.toNat % 64]

/-- Modelled from the spec: the UTF-8 bytes of a list of characters (the codec of text is not
in the repository). -/
def utf8EncodeChars : List Char → List Nat
  | [] => []
  | c :: cs => utf8EncodeChar c ++ utf8EncodeChars cs

/-- Modelled from the spec: the UTF-8 bytes of a text (the codec of text is not in the
repository). -/
def utf8Encode (s : String) : List Nat :=
  utf8EncodeChars s.data

/-- Whether `b` is a continuation byte of UTF-8. -/
def isCont (b : Nat) : Bool :=
  128 ≤ b && b < 192

/-- Whether `n` is a Unicode scalar value. -/
def isScalar (n : Nat) : Bool :=
  n < 55296 || (57343 < n && n < 1114112)

/-- Modelled from the spec: the first character of UTF-8 bytes and the bytes that follow it;
overlong forms, surrogates and truncated sequences are refused (the codec of text is not in the
repository). -/
def utf8DecodeChar (bs : List Nat) : Option (Char × List Nat) :=
  match bs with
  | [] => none
  | b0 :: r0 =>
    if b0 < 128 then some (Char.ofNat b0, r0)
    else if 192 ≤ b0 ∧ b0 < 224 then
      match r0 with
      | b1 :: r1 =>
        if isCont b1 ∧ 128 ≤ (b0 - 192) * 64 + (b1 - 128) then
          some (Char.ofNat ((b0 - 192) * 64 + (b1 - 128)), r1)
        else none
      | _ => none
    else if 224 ≤ b0 ∧ b0 < 240 then
      match r0 with
      | b1 :: b2 :: r2 =>
        if isCont b1 ∧ isCont b2 ∧ 2048 ≤ (b0 - 224) * 4096 + (b1 - 128) * 64 + (b2 - 128) ∧
            isScalar ((b0 - 224) * 4096 + (b1 - 128) * 64 + (b2 - 128)) then
          some (Char.ofNat ((b0 - 224) * 4096 + (b1 - 128) * 64 + (b2 - 128)), r2)
        else none
      | _ => none
    else if 240 ≤ b0 ∧ b0 < 248 then
      match r0 with
      | b1 :: b2 :: b3 :: r3 =>
        if isCont b1 ∧ isCont b2 ∧ isCont b3 ∧
            65536 ≤ (b0 - 240) * 262144 + (b1 - 128) * 4096 + (b2 - 128) * 64 + (b3 - 128) ∧
            isScalar ((b0 - 240) * 262144 + (b1 - 128) * 4096 + (b2 - 128) * 64 + (b3 - 128)) then
          some (Char.ofNat ((b0 - 240) * 262144 + (b1 - 128) * 4096 + (b2 - 128) * 64 +
            (b3 - 128)), r3)
        else none
      | _ => none
    else none

/-- Modelled from the spec: the characters of UTF-8 bytes; `fuel` bounds their number (the
codec of text is not in the repository). -/
def utf8DecodeChars : Nat → List Nat → Option (List Char)
  | _, [] => some []
  | 0, _ :: _ => none
  | fuel + 1, b :: bs =>
    match utf8DecodeChar (b :: bs) with
    | none => none
    | some (c, rest) =>
      match utf8DecodeChars fuel rest with
      | some cs => some (c :: cs)
      | none => none

/-- Modelled from the spec: the text of UTF-8 bytes, none when they are malformed (the codec
of text is not in the repository). -/
def utf8Decode (bs : List Nat) : Option String :=
  match utf8DecodeChars bs.length bs with
  | some cs => some (String.mk cs)
  | none => none

/-- The 64-bit pattern of a signed integer (two's complement), as a varint carries it. -/
def toUint64 (z : Int) : Nat :=
  (z % 18446744073709551616).toNat

/-- The `int64` of a 64-bit pattern. -/
def int64Of (n : Nat) : Int :=
  if n % 18446744073709551616 < 9223372036854775808 then (n % 18446744073709551616 : Nat)
  else ((n % 18446744073709551616 : Nat) : Int) - 18446744073709551616

/-- The `int32` of a varint: its low 32 bits. -/
def int32Of (n : Nat) : Int :=
  if n % 4294967296 < 2147483648 then (n % 4294967296 : Nat)
  else ((n % 4294967296 : Nat) : Int) - 4294967296

/-- Modelled from the spec: the fields of a `Book` on the wire, by the tags of the struct
(`Id` 1 varint, `Title` 2, `Author` 3, `Year` 4 varint, `Language` 5, `Genres` 6 repeated,
`Price` 7 varint, `Quantity` 8 varint); a scalar at its zero value is left out, every element
of `Genres` is its own field (the encoder of the codec is not in the repository). -/
def bookFields (b : Book) : List (Nat × WireValue) :=
  (if b.Id = 0 then [] else [(1, WireValue.varint (toUint64 b.Id))]) ++
  ((if b.Title = "" then [] else [(2, WireValue.len (utf8Encode b.Title))]) ++
  ((if b.Author = "" then [] else [(3, WireValue.len (utf8Encode b.Author))]) ++
  ((if b.Year = 0 then [] else [(4, WireValue.varint (toUint64 b.Year))]) ++
  ((if b.Language = "" then [] else [(5, WireValue.len (utf8Encode b.Language))]) ++
  (b.Genres.map (fun g => (6, WireValue.len (utf8Encode g))) ++
  ((if b.Price = 0 then [] else [(7, WireValue.varint (toUint64 b.Price))]) ++
  (if b.Quantity = 0 then [] else [(8, WireValue.varint (toUint64 b.Quantity))])))))))

/-- Modelled from the spec: the binary wire encoding of a `Book` (the encoder of the codec is
not in the repository). -/
def encodeBook (b : Book) : List Nat :=
  writeFields (bookFields b)

/-- The `Book` with every field at its zero value. -/
def zeroBook : Book :=
  { Id := 0, Title := "", Author := "", Year := 0, Language := "", Genres := [], Price := 0,
    Quantity := 0 }

/-- Modelled from the spec: one field of the wire merged into a `Book`: a scalar replaces the
value, an occurrence of tag 6 is appended to `Genres`, text that is not UTF-8 is malformed, any
other tag or wire type is an unknown field and changes nothing (the decoder of the codec is not
in the repository). -/
def mergeField (b : Book) (f : Nat × WireValue) : Option Book :=
  match f.2 with
  | .varint n =>
    if f.1 = 1 then some { b with Id := int64Of n }
    else if f.1 = 4 then some { b with Year := int32Of n }
    else if f.1 = 7 then some { b with Price := int32Of n }
    else if f.1 = 8 then some { b with Quantity := int32Of n }
    else some b
  | .len bs =>
    if f.1 = 2 then (utf8Decode bs).map (fun s => { b with Title := s })
    else if f.1 = 3 then (utf8Decode bs).map (fun s => { b with Author := s })
    else if f.1 = 5 then (utf8Decode bs).map (fun s => { b with Language := s })
    else if f.1 = 6 then (utf8Decode bs).map (fun s => { b with Genres := b.Genres ++ [s] })
    else some b
  | _ => some b

/-- Modelled from the spec: the fields of the wire merged into a `Book`, in the order
encountered (the decoder of the codec is not in the repository). -/
def mergeFields : Book → List (Nat × WireValue) → Option Book
  | b, [] => some b
  | b, f :: fs =>
    match mergeField b f with
    | some b' => mergeFields b' fs
    | none => none

/-- Modelled from the spec: a `Book` from its binary wire encoding, none
(`MalformedMessage`) when the bytes are truncated or malformed (the decoder of the codec is not
in the repository). -/
def decodeBook (bs : List Nat) : Option Book :=
  match readMessage bs with
  | some fs => mergeFields zeroBook fs
  | none => none

/-- The values a Go `Book` can hold: `Id` an `int64`, `Year`, `Price` and `Quantity` an `int32`,
and every text (title, author, language, each genre) of fewer than 2 ^ 64 bytes. -/
def Book.inRange (b : Book) : Prop :=
  (-9223372036854775808 ≤ b.Id ∧ b.Id < 9223372036854775808) ∧
  (-2147483648 ≤ b.Year ∧ b.Year < 2147483648) ∧
  (-2147483648 ≤ b.Price ∧ b.Price < 2147483648) ∧
  (-2147483648 ≤ b.Quantity ∧ b.Quantity < 2147483648) ∧
  (utf8Encode b.Title).length < 18446744073709551616 ∧
  (utf8Encode b.Author).length < 18446744073709551616 ∧
  (utf8Encode b.Language).length < 18446744073709551616 ∧
  ∀ g ∈ b.Genres, (utf8Encode g).length < 18446744073709551616

/-- The fields the encoder writes: a field number and a value that fit 64 bits. -/
def WireValue.fits (f : Nat × WireValue) : Prop :=
  f.1 * 8 + 7 < 18446744073709551616 ∧
    match f.2 with
    | .varint n => n < 18446744073709551616
    | .i64 b => b.length = 8
    | .len b => b.length < 18446744073709551616
    | .i32 b => b.length = 4

/-! ## The handlers over any conversion of the genres -/

/-- The handler `CreateBook` with the call `genresArray.Set(book.Genres)` as the parameter
`set`; `CreateBook` is `CreateBookWith TextArray.Set`. -/
def CreateBookWith {σ : Type} (set : List String → Except GoError TextArray) (db : DB σ) (s : σ)
    (req : Option CreateBookRequest) : Outcome Book × σ :=
  match CreateBookRequest.GetBook req with
  | none => (.panic, s)
  | some book =>
    match set book.Genres with
    | .error e => (.err e, s)
    | .ok genresArray =>
      let r := db.QueryRowContext s .insertBook
        [.string book.Title, .string book.Author, .int64 book.Year, .string book.Language,
         genresArray.Value, .int64 book.Price, .int64 book.Quantity]
      match scanId r.1 with
      | .error e => (.err e, r.2)
      | .ok id => (.ok { book with Id := id }, r.2)

/-- The handler `UpdateBook` with the call `genresArray.Set(updatedBook.Genres)` as the
parameter `set`; `UpdateBook` is `UpdateBookWith TextArray.Set`. -/
def UpdateBookWith {σ : Type} (set : List String → Except GoError TextArray) (db : DB σ) (s : σ)
    (req : Option UpdateBookRequest) : Outcome Book × σ :=
  let bookID := UpdateBookRequest.GetId req
  match UpdateBookRequest.GetBook req with
  | none => (.panic, s)
  | some updatedBook =>
    match set updatedBook.Genres with
    | .error e => (.err e, s)
    | .ok genresArray =>
      let r := db.QueryRowContext s .updateBook
        [.string updatedBook.Title, .string updatedBook.Author, .int64 updatedBook.Year,
         .string updatedBook.Language, genresArray.Value, .int64 updatedBook.Price,
         .int64 updatedBook.Quantity, .int64 bookID]
      match scanId r.1 with
      | .error e => (.err e, r.2)
      | .ok id => (.ok { updatedBook with Id := id }, r.2)

/-- A conversion that refuses every slice. -/
def refusingSet (_src : List String) : Except GoError TextArray :=
  .error (.ScanError 0)

/-- A storage on which every statement fails with the driver error `d` and nothing changes. -/
def failingWith (d : DriverError) : DB Unit where
  QueryRowContext := fun s _ _ => (.error d, s)
  ExecContext := fun s _ _ => (.error d, s)

/-- The driver error of message `n` letters long. -/
def nthFailure (n : Nat) : DriverError :=
  .unreachable (String.mk (List.replicate n 'x'))

deriving instance Fintype for ErrorKind

/-! ## Properties of the handlers -/

/-- The first row a statement keyed by `id` returns, when some row has that `id`. -/
theorem head_returning_id (rows : List Record) (i : Int) (h : ∃ r ∈ rows, r.id = i) :
    ((rows.filter (fun x => x.id = i)).map (fun x => [Value.int64 x.id])).head?
      = some [Value.int64 i] := by
  obtain ⟨r, hr, hi⟩ := h
  cases hf : rows.filter (fun x => x.id = i) with
  | nil =>
    have hmem : r ∈ rows.filter (fun x => x.id = i) := List.mem_filter.2 ⟨hr, by simpa using hi⟩
    rw [hf] at hmem
    cases hmem
  | cons x xs =>
    have hx : x ∈ rows.filter (fun x => x.id = i) := by rw [hf]; simp
    have hxi := (List.mem_filter.1 hx).2
    simp at hxi
    simp [hxi]

/-- No row is returned by a statement keyed by `id` when no row has that `id`. -/
theorem filter_id_nil (rows : List Record) (i : Int) (h : ∀ r ∈ rows, r.id ≠ i) :
    rows.filter (fun x => x.id = i) = [] := by
  apply List.filter_eq_nil_iff.2
  intro r hr
  simpa using h r hr

/-- The seven arguments of a book always make a row. -/
theorem recordOf_book (id : Int) (b : Book) (ga : TextArray) (h : TextArray.Set b.Genres = .ok ga) :
    recordOf id [.string b.Title, .string b.Author, .int64 b.Year, .string b.Language,
        ga.Value, .int64 b.Price, .int64 b.Quantity]
      = some { id := id, title := b.Title, author := b.Author, year := b.Year,
               language := b.Language,
               genres := (match b.Genres with
                 | [] => none
                 | x :: xs => some (x :: xs)),
               price := b.Price, quantity := b.Quantity } := by
  cases hg : b.Genres with
  | nil =>
    rw [hg] at h
    simp [TextArray.Set] at h
    subst h
    simp [recordOf, textArg, intArg, arrayArg, TextArray.Value]
  | cons x xs =>
    rw [hg] at h
    simp [TextArray.Set] at h
    subst h
    simp [recordOf, textArg, intArg, arrayArg, TextArray.Value]

/-- C1: when the insert succeeds and returns identity `n`, `CreateBook` returns no error and
the book of the request with `Id` set to `n` and title, author, year, language, genres, price and
quantity as in the request; the one statement issued is the insert, with exactly those seven
fields as its arguments (the genres as a NULL array when there is none, as the array of the
same elements in order otherwise), whatever the `Id` of the request's book. -/
theorem CreateBook_success {σ : Type} (db : DB σ) (s s' : σ) (b : Book) (n : Int)
    (h : db.QueryRowContext s .insertBook
          [.string b.Title, .string b.Author, .int64 b.Year, .string b.Language,
           (if b.Genres = [] then Value.null else Value.array b.Genres),
           .int64 b.Price, .int64 b.Quantity] = (.ok (some [.int64 n]), s')) :
    CreateBook db s (some { Book := some b })
        = (.ok { Id := n, Title := b.Title, Author := b.Author, Year := b.Year,
                 Language := b.Language, Genres := b.Genres, Price := b.Price,
                 Quantity := b.Quantity }, s')
      ∧ ∀ k : Int, (CreateBook db.traced (s, []) (some { Book := some { b with Id := k } })).2.2
          = [(Statement.insertBook,
              [.string b.Title, .string b.Author, .int64 b.Year, .string b.Language,
               (if b.Genres = [] then Value.null else Value.array b.Genres),
               .int64 b.Price, .int64 b.Quantity])] := by
  constructor
  · cases hg : b.Genres with
    | nil =>
      rw [hg] at h
      simp [CreateBook, CreateBookRequest.GetBook, TextArray.Set, TextArray.Value, hg] at h ⊢
      simp [h, scanId, Row.columns, assign, convertInt64, bind, Except.bind]
    | cons x xs =>
      rw [hg] at h
      simp [CreateBook, CreateBookRequest.GetBook, TextArray.Set, TextArray.Value, hg] at h ⊢
      simp [h, scanId, Row.columns, assign, convertInt64, bind, Except.bind]
  · intro k
    cases hg : b.Genres with
    | nil =>
      simp only [CreateBook, CreateBookRequest.GetBook, TextArray.Set, TextArray.Value, hg,
        DB.traced]
      split <;> simp
    | cons x xs =>
      simp only [CreateBook, CreateBookRequest.GetBook, TextArray.Set, TextArray.Value, hg,
        DB.traced]
      split <;> simp

/-- Witness of C1 on the table: creating `dune` in the empty table. -/
theorem CreateBook_success_witness :
    CreateBook pg emptyTable (some { Book := some dune })
      = (.ok { dune with Id := 1 }, { rows := [duneRecord], nextId := 2 }) :=
  (CreateBook_success pg emptyTable { rows := [duneRecord], nextId := 2 } dune 1 rfl).1


/-- C2: when the point lookup matches no row, `ReadBook` returns no book and fails with
`sql.ErrNoRows`, the error of kind `NotFound`; no error of kind `StorageUnavailable` or
`ConstraintViolation` (and no driver error at all) is that error. -/
theorem ReadBook_missing_NotFound {σ : Type} (db : DB σ) (s s' : σ)
    (req : Option ReadBookRequest)
    (h : db.QueryRowContext s .selectBook [.int64 (ReadBookRequest.GetId req)]
          = (.ok none, s')) :
    ReadBook db s req = (.err .ErrNoRows, s')
      ∧ GoError.ErrNoRows.kind = some ErrorKind.NotFound
      ∧ (∀ e : GoError, e.kind = some ErrorKind.StorageUnavailable ∨
            e.kind = some ErrorKind.ConstraintViolation → e ≠ GoError.ErrNoRows)
      ∧ ∀ d : DriverError, GoError.Driver d ≠ GoError.ErrNoRows := by
  refine ⟨?_, rfl, ?_, ?_⟩
  · simp [ReadBook, h, scanBook, Row.columns, bind, Except.bind]
  · intro e he hne
    subst hne
    simp [GoError.kind] at he
  · intro d hd
    cases hd

/-- Witness of C2 on the table: identity 42 is read from a table that holds only identity 1. -/
theorem ReadBook_missing_NotFound_witness :
    ReadBook pg { rows := [duneRecord], nextId := 2 } (some { Id := 42 })
      = (.err .ErrNoRows, { rows := [duneRecord], nextId := 2 }) :=
  (ReadBook_missing_NotFound pg { rows := [duneRecord], nextId := 2 }
    { rows := [duneRecord], nextId := 2 } (some { Id := 42 }) rfl).1

/-- C3: when no row of the table has the identity of the request, `UpdateBook` returns no
book and fails with `sql.ErrNoRows`, the error of kind `NotFound`, and the table is as before. -/
theorem UpdateBook_missing_NotFound (t : Table) (i : Int) (b : Book)
    (h : ∀ r ∈ t.rows, r.id ≠ i) :
    UpdateBook pg t (some { Id := i, Book := some b }) = (.err .ErrNoRows, t)
      ∧ GoError.ErrNoRows.kind = some ErrorKind.NotFound := by
  refine ⟨?_, rfl⟩
  have hmap : t.rows.map (fun x => if x.id = i then
      ({ id := i, title := b.Title, author := b.Author, year := b.Year, language := b.Language,
         genres := (match b.Genres with
           | [] => none
           | x :: xs => some (x :: xs)),
         price := b.Price, quantity := b.Quantity } : Record) else x) = t.rows := by
    conv_rhs => rw [← List.map_id t.rows]
    apply List.map_congr_left
    intro r hr
    simp [h r hr]
  obtain ⟨ga, hga⟩ : ∃ ga, TextArray.Set b.Genres = .ok ga := by
    cases hg : b.Genres <;> simp [TextArray.Set]
  have hrec := recordOf_book i b ga hga
  simp only [UpdateBook, UpdateBookRequest.GetBook, UpdateBookRequest.GetId, hga, pg, pgRun,
    hrec, filter_id_nil t.rows i h, hmap]
  simp [scanId, Row.columns, bind, Except.bind]

/-- Witness of C3: identity 42 is updated in a table that holds only identity 1. -/
theorem UpdateBook_missing_NotFound_witness :
    UpdateBook pg { rows := [duneRecord], nextId := 2 } (some { Id := 42, Book := some dune })
      = (.err .ErrNoRows, { rows := [duneRecord], nextId := 2 }) :=
  (UpdateBook_missing_NotFound { rows := [duneRecord], nextId := 2 } 42 dune (by decide)).1

/-- C4: whatever the request, `DeleteBook` returns `DeleteBookResponse{Success: true}` and no
error whenever the delete statement is carried out, for every number of rows affected (zero
included); it returns an error exactly when the delete call returns one, that error being the
one of the delete call; and the one statement issued is the delete keyed by the identity. -/
theorem DeleteBook_success_iff {σ : Type} (db : DB σ) (s : σ) (req : Option DeleteBookRequest) :
    (∀ n : Nat, (db.ExecContext s .deleteBook [.int64 (DeleteBookRequest.GetId req)]).1 = .ok n →
        DeleteBook db s req
          = (.ok { Success := true },
             (db.ExecContext s .deleteBook [.int64 (DeleteBookRequest.GetId req)]).2))
      ∧ ((∃ e, (DeleteBook db s req).1 = .err e) ↔
          ∃ d, (db.ExecContext s .deleteBook [.int64 (DeleteBookRequest.GetId req)]).1 = .error d)
      ∧ (∀ d, (db.ExecContext s .deleteBook [.int64 (DeleteBookRequest.GetId req)]).1 = .error d →
          (DeleteBook db s req).1 = .err (.Driver d))
      ∧ (DeleteBook db.traced (s, []) req).2.2
          = [(Statement.deleteBook, [.int64 (DeleteBookRequest.GetId req)])] := by
  refine ⟨?_, ?_, ?_, ?_⟩
  · intro n hn
    simp [DeleteBook, hn]
  · cases hr : (db.ExecContext s .deleteBook [.int64 (DeleteBookRequest.GetId req)]).1 with
    | error d => simp [DeleteBook, hr]
    | ok n => simp [DeleteBook, hr]
  · intro d hd
    simp [DeleteBook, hd]
  · simp only [DeleteBook, DB.traced]
    split <;> simp

/-- Witness of C4 on the table: deleting identity 1, which is there, and identity 42, which is
not, both give success. -/
theorem DeleteBook_success_iff_witness :
    DeleteBook pg { rows := [duneRecord], nextId := 2 } (some { Id := 1 })
        = (.ok { Success := true }, { rows := [], nextId := 2 })
      ∧ DeleteBook pg { rows := [duneRecord], nextId := 2 } (some { Id := 42 })
        = (.ok { Success := true }, { rows := [duneRecord], nextId := 2 }) :=
  ⟨(DeleteBook_success_iff pg { rows := [duneRecord], nextId := 2 } (some { Id := 1 })).1 1 rfl,
   (DeleteBook_success_iff pg { rows := [duneRecord], nextId := 2 } (some { Id := 42 })).1 0 rfl⟩

/-- C5, as stated, fails: a delete the storage could not carry out returns the storage's error
and no response, a delete that affects zero rows returns success, and the two results differ. -/
theorem DeleteBook_failed_differs_from_noop :
    (DeleteBook downDB () (some { Id := 7 })).1
        = .err (.Driver (.unreachable "connection refused"))
      ∧ (DeleteBook emptyDB () (some { Id := 7 })).1 = .ok { Success := true }
      ∧ (DeleteBook downDB () (some { Id := 7 })).1
          ≠ (DeleteBook emptyDB () (some { Id := 7 })).1 := by
  refine ⟨rfl, rfl, ?_⟩
  intro h
  cases h

/-- C5, amended: a delete that affects zero rows is indistinguishable from a delete that
affects any other number of rows, both return `DeleteBookResponse{Success: true}` and no error;
a delete that fails returns the error of the storage, which is not that result. -/
theorem DeleteBook_noop_same_as_removal {σ τ : Type} (db : DB σ) (db' : DB τ) (s : σ) (s' : τ)
    (req req' : Option DeleteBookRequest) (n : Nat)
    (h0 : (db.ExecContext s .deleteBook [.int64 (DeleteBookRequest.GetId req)]).1 = .ok 0)
    (hn : (db'.ExecContext s' .deleteBook [.int64 (DeleteBookRequest.GetId req')]).1 = .ok n) :
    (DeleteBook db s req).1 = .ok { Success := true }
      ∧ (DeleteBook db' s' req').1 = (DeleteBook db s req).1
      ∧ ∀ (υ : Type) (db'' : DB υ) (s'' : υ) (req'' : Option DeleteBookRequest) (d : DriverError),
          (db''.ExecContext s'' .deleteBook [.int64 (DeleteBookRequest.GetId req'')]).1 = .error d →
            (DeleteBook db'' s'' req'').1 = .err (.Driver d)
              ∧ (DeleteBook db'' s'' req'').1 ≠ (DeleteBook db s req).1 := by
  have h1 : (DeleteBook db s req).1 = .ok { Success := true } := by simp [DeleteBook, h0]
  refine ⟨h1, ?_, ?_⟩
  · rw [h1]; simp [DeleteBook, hn]
  · intro υ db'' s'' req'' d hd
    have h2 : (DeleteBook db'' s'' req'').1 = .err (.Driver d) := by simp [DeleteBook, hd]
    refine ⟨h2, ?_⟩
    rw [h1, h2]
    intro hc
    cases hc

/-- Witness of C5, amended: on the table, deleting the missing identity 42 and deleting the
present identity 1 return the same result. -/
theorem DeleteBook_noop_same_as_removal_witness :
    (DeleteBook pg { rows := [duneRecord], nextId := 2 } (some { Id := 42 })).1
        = .ok { Success := true }
      ∧ (DeleteBook pg { rows := [duneRecord], nextId := 2 } (some { Id := 1 })).1
        = (DeleteBook pg { rows := [duneRecord], nextId := 2 } (some { Id := 42 })).1 :=
  ⟨(DeleteBook_noop_same_as_removal pg pg { rows := [duneRecord], nextId := 2 }
      { rows := [duneRecord], nextId := 2 } (some { Id := 42 }) (some { Id := 1 }) 1 rfl rfl).1,
   (DeleteBook_noop_same_as_removal pg pg { rows := [duneRecord], nextId := 2 }
      { rows := [duneRecord], nextId := 2 } (some { Id := 42 }) (some { Id := 1 }) 1 rfl rfl).2.1⟩

/-- C6: when a row of the table has the identity `i` of the request, `UpdateBook` returns no
error and a book whose `Id` is `i`, whatever the `Id` of the request's book, and whose title,
author, year, language, genres, price and quantity are those of the request's book. -/
theorem UpdateBook_success (t : Table) (i : Int) (b : Book) (h : ∃ r ∈ t.rows, r.id = i) :
    (UpdateBook pg t (some { Id := i, Book := some b })).1
      = .ok { Id := i, Title := b.Title, Author := b.Author, Year := b.Year,
              Language := b.Language, Genres := b.Genres, Price := b.Price,
              Quantity := b.Quantity } := by
  obtain ⟨ga, hga⟩ : ∃ ga, TextArray.Set b.Genres = .ok ga := by
    cases hg : b.Genres <;> simp [TextArray.Set]
  have hrec := recordOf_book i b ga hga
  simp only [UpdateBook, UpdateBookRequest.GetBook, UpdateBookRequest.GetId, hga, pg, pgRun,
    hrec, head_returning_id t.rows i h]
  simp [scanId, Row.columns, assign, convertInt64, bind, Except.bind]

/-- Witness of C6: the row of identity 1 is updated with a book that says its `Id` is 5. -/
theorem UpdateBook_success_witness :
    (UpdateBook pg { rows := [duneRecord], nextId := 2 }
        (some { Id := 1, Book := some { dune with Id := 5, Title := "Dune Messiah" } })).1
      = .ok { dune with Id := 1, Title := "Dune Messiah" } :=
  UpdateBook_success { rows := [duneRecord], nextId := 2 } 1
    { dune with Id := 5, Title := "Dune Messiah" } ⟨duneRecord, by decide, rfl⟩


/-- An error of the first step of a sequence, or of what follows it, is the error of the whole. -/
theorem bind_is_error {α β : Type} (P : GoError → Prop) (x : Except GoError α)
    (f : α → Except GoError β) (hx : ∀ e, x = .error e → P e)
    (hf : ∀ a, ∃ e, f a = .error e ∧ P e) : ∃ e, (x >>= f) = .error e ∧ P e := by
  cases x with
  | error e => exact ⟨e, rfl, hx e rfl⟩
  | ok a => exact hf a

/-- A refused conversion is an error of `Scan`, which has no kind. -/
theorem assign_error_kind {α : Type} (conv : Value → Option α) (cols : List Value) (i : Nat)
    (e : GoError) (h : assign conv cols i = .error e) : e.kind = none := by
  unfold assign at h
  split at h
  · cases h
  · cases h
    rfl

/-- No row can be stored into the destinations of `ReadBook`: the sixth destination is the
`[]string` field `Genres`, which `Scan` refuses; the error is one of `Scan`, not
`sql.ErrNoRows`. -/
theorem scanBook_of_row (cols : List Value) :
    ∃ e, scanBook (.ok (some cols)) = .error e ∧ e.kind = none := by
  unfold scanBook
  refine bind_is_error (fun e => e.kind = none) _ _ ?_ ?_
  · intro e he
    simp only [Row.columns] at he
    split at he
    · cases he
    · cases he
      rfl
  · intro cs
    refine bind_is_error (fun e => e.kind = none) _ _ (assign_error_kind _ _ _) ?_
    intro id
    refine bind_is_error (fun e => e.kind = none) _ _ (assign_error_kind _ _ _) ?_
    intro title
    refine bind_is_error (fun e => e.kind = none) _ _ (assign_error_kind _ _ _) ?_
    intro author
    refine bind_is_error (fun e => e.kind = none) _ _ (assign_error_kind _ _ _) ?_
    intro year
    refine bind_is_error (fun e => e.kind = none) _ _ (assign_error_kind _ _ _) ?_
    intro language
    exact ⟨.ScanError 5, rfl, rfl⟩

/-- Replacing the rows of identity `i` by a row of identity `i` leaves the other rows. -/
theorem filter_other_map_replace (rows : List Record) (i : Int) (r0 : Record) (h0 : r0.id = i) :
    (rows.map (fun x => if x.id = i then r0 else x)).filter (fun r => ¬ r.id = i)
      = rows.filter (fun r => ¬ r.id = i) := by
  induction rows with
  | nil => rfl
  | cons x xs ih =>
    rw [List.map_cons, List.filter_cons, List.filter_cons, ih]
    by_cases hxi : x.id = i <;> simp [hxi, h0]

/-- The first row a lookup by `id` returns, when some row has that `id`. -/
theorem head_columns (rows : List Record) (i : Int) (h : ∃ r ∈ rows, r.id = i) :
    ∃ cols, ((rows.filter (fun x => x.id = i)).map Record.columns).head? = some cols := by
  obtain ⟨r, hr, hi⟩ := h
  cases hf : rows.filter (fun x => x.id = i) with
  | nil =>
    have hmem : r ∈ rows.filter (fun x => x.id = i) := List.mem_filter.2 ⟨hr, by simpa using hi⟩
    rw [hf] at hmem
    cases hmem
  | cons x xs => exact ⟨x.columns, by simp⟩

/-- On the table, `ReadBook` of an identity that some row has returns an error of `Scan` and
no book. -/
theorem ReadBook_present_is_error (t : Table) (i : Int) (h : ∃ r ∈ t.rows, r.id = i) :
    ∃ e, ReadBook pg t (some { Id := i }) = (.err e, t) ∧ e.kind = none := by
  obtain ⟨cols, hcols⟩ := head_columns t.rows i h
  obtain ⟨e, he, hk⟩ := scanBook_of_row cols
  refine ⟨e, ?_, hk⟩
  simp only [ReadBook, ReadBookRequest.GetId, pg, pgRun, hcols, he]

/-- C7, at the failing input: `CreateBook` stores the row of the request's book under the next
identity and returns the book with that identity, and the `ReadBook` of that identity on the
resulting table returns an error of `Scan` (not `sql.ErrNoRows`) and no book; for `dune` in the
empty table the error is the Scan error on column 5, `genres`. -/
theorem CreateBook_then_ReadBook_is_error (t : Table) (b : Book) :
    (CreateBook pg t (some { Book := some b })).1
        = .ok { Id := t.nextId, Title := b.Title, Author := b.Author, Year := b.Year,
                Language := b.Language, Genres := b.Genres, Price := b.Price,
                Quantity := b.Quantity }
      ∧ (CreateBook pg t (some { Book := some b })).2.rows
        = t.rows ++ [{ id := t.nextId, title := b.Title, author := b.Author, year := b.Year,
                       language := b.Language,
                       genres := (match b.Genres with
                         | [] => none
                         | x :: xs => some (x :: xs)),
                       price := b.Price, quantity := b.Quantity }]
      ∧ (∃ e, (ReadBook pg (CreateBook pg t (some { Book := some b })).2
                (some { Id := t.nextId })).1 = .err e ∧ e.kind = none)
      ∧ (ReadBook pg (CreateBook pg emptyTable (some { Book := some dune })).2
            (some { Id := 1 })).1 = .err (.ScanError 5) := by
  obtain ⟨ga, hga⟩ : ∃ ga, TextArray.Set b.Genres = .ok ga := by
    cases hg : b.Genres <;> simp [TextArray.Set]
  have hrec := recordOf_book t.nextId b ga hga
  have hrows : (CreateBook pg t (some { Book := some b })).2.rows
        = t.rows ++ [{ id := t.nextId, title := b.Title, author := b.Author, year := b.Year,
                       language := b.Language,
                       genres := (match b.Genres with
                         | [] => none
                         | x :: xs => some (x :: xs)),
                       price := b.Price, quantity := b.Quantity }] := by
    simp only [CreateBook, CreateBookRequest.GetBook, hga, pg, pgRun, hrec]
    simp [scanId, Row.columns, assign, convertInt64, bind, Except.bind]
  refine ⟨?_, hrows, ?_, rfl⟩
  · simp only [CreateBook, CreateBookRequest.GetBook, hga, pg, pgRun, hrec]
    simp [scanId, Row.columns, assign, convertInt64, bind, Except.bind]
  · obtain ⟨e, he, hk⟩ := ReadBook_present_is_error
      (CreateBook pg t (some { Book := some b })).2 t.nextId (by rw [hrows]; exact ⟨_, List.mem_append_right _ (List.mem_singleton.2 rfl), rfl⟩)
    exact ⟨e, by rw [he], hk⟩

/-- C8, at the failing input: when a row of the table has the identity `i`, `UpdateBook` with
book `b` succeeds; afterwards every row of identity `i` holds exactly the title, author, year,
language, genres, price and quantity of `b` (a NULL array for no genres), the rows of every
other identity are as before, no row is added or removed; and the `ReadBook` of `i` on the
resulting table returns an error of `Scan` and no book. -/
theorem UpdateBook_replaces_row_ReadBook_is_error (t : Table) (i : Int) (b : Book)
    (h : ∃ r ∈ t.rows, r.id = i) :
    (∃ bk, (UpdateBook pg t (some { Id := i, Book := some b })).1 = .ok bk)
      ∧ (∀ r ∈ (UpdateBook pg t (some { Id := i, Book := some b })).2.rows, r.id = i →
          r = { id := i, title := b.Title, author := b.Author, year := b.Year,
                language := b.Language,
                genres := (match b.Genres with
                  | [] => none
                  | x :: xs => some (x :: xs)),
                price := b.Price, quantity := b.Quantity })
      ∧ (UpdateBook pg t (some { Id := i, Book := some b })).2.rows.filter (fun r => ¬ r.id = i)
          = t.rows.filter (fun r => ¬ r.id = i)
      ∧ (UpdateBook pg t (some { Id := i, Book := some b })).2.rows.map Record.id
          = t.rows.map Record.id
      ∧ ∃ e, (ReadBook pg (UpdateBook pg t (some { Id := i, Book := some b })).2
                (some { Id := i })).1 = .err e ∧ e.kind = none := by
  obtain ⟨ga, hga⟩ : ∃ ga, TextArray.Set b.Genres = .ok ga := by
    cases hg : b.Genres <;> simp [TextArray.Set]
  have hrec := recordOf_book i b ga hga
  have hrows : (UpdateBook pg t (some { Id := i, Book := some b })).2.rows
      = t.rows.map (fun x => if x.id = i then
          ({ id := i, title := b.Title, author := b.Author, year := b.Year,
             language := b.Language,
             genres := (match b.Genres with
               | [] => none
               | x :: xs => some (x :: xs)),
             price := b.Price, quantity := b.Quantity } : Record) else x) := by
    simp only [UpdateBook, UpdateBookRequest.GetBook, UpdateBookRequest.GetId, hga, pg, pgRun,
      hrec, head_returning_id t.rows i h]
    simp [scanId, Row.columns, assign, convertInt64, bind, Except.bind]
  have hids : (UpdateBook pg t (some { Id := i, Book := some b })).2.rows.map Record.id
      = t.rows.map Record.id := by
    rw [hrows, List.map_map]
    apply List.map_congr_left
    intro r _
    by_cases hr : r.id = i <;> simp [hr]
  have hok : ∃ bk, (UpdateBook pg t (some { Id := i, Book := some b })).1 = .ok bk := by
    simp only [UpdateBook, UpdateBookRequest.GetBook, UpdateBookRequest.GetId, hga, pg, pgRun,
      hrec, head_returning_id t.rows i h]
    simp [scanId, Row.columns, assign, convertInt64, bind, Except.bind]
  refine ⟨hok, ?_, ?_, hids, ?_⟩
  · intro r hr hri
    rw [hrows] at hr
    obtain ⟨x, _, hx⟩ := List.mem_map.1 hr
    by_cases hxi : x.id = i
    · simp [hxi] at hx
      exact hx.symm
    · simp [hxi] at hx
      subst hx
      exact absurd hri hxi
  · rw [hrows]
    exact filter_other_map_replace t.rows i _ rfl
  · have hex : ∃ r ∈ (UpdateBook pg t (some { Id := i, Book := some b })).2.rows, r.id = i := by
      obtain ⟨r, hr, hri⟩ := h
      have hm : r.id ∈ t.rows.map Record.id := List.mem_map.2 ⟨r, hr, rfl⟩
      rw [← hids] at hm
      obtain ⟨r', hr', hri'⟩ := List.mem_map.1 hm
      exact ⟨r', hr', hri'.trans hri⟩
    obtain ⟨e, he, hk⟩ := ReadBook_present_is_error _ i hex
    exact ⟨e, by rw [he], hk⟩

/-- Witness of C8: the row of identity 1 is replaced by a book with no author and no genres in
a table that also holds identity 2. -/
theorem UpdateBook_replaces_row_ReadBook_is_error_witness :
    List.filter (fun r => ¬ r.id = 1)
        (UpdateBook pg { rows := [duneRecord, { duneRecord with id := 2 }], nextId := 3 }
          (some { Id := 1, Book := some { dune with Author := "", Genres := [] } })).2.rows
      = List.filter (fun r => ¬ r.id = 1) [duneRecord, { duneRecord with id := 2 }] :=
  (UpdateBook_replaces_row_ReadBook_is_error
    { rows := [duneRecord, { duneRecord with id := 2 }], nextId := 3 } 1
    { dune with Author := "", Genres := [] } ⟨duneRecord, by decide, rfl⟩).2.2.1


/-- The driver errors `nthFailure n` are pairwise different. -/
theorem nthFailure_injective (m n : Nat) (h : nthFailure m = nthFailure n) : m = n := by
  simp only [nthFailure, DriverError.unreachable.injEq] at h
  have hl := congrArg String.length h
  simpa [String.length] using hl

/-- A handler hands back the error of a failed statement as it is. -/
theorem CreateBook_failingWith (d : DriverError) :
    (CreateBook (failingWith d) () (some { Book := some dune })).1 = .err (.Driver d) :=
  rfl

/-- C9, as stated, fails: the error a handler returns for a failed storage call is not one of
four values, one per kind of the taxonomy, it is the error of the storage itself, as many
different errors as the storage has (no choice of one error per kind covers what `CreateBook`
returns for the failed inserts); an insert that returns no row makes `CreateBook` return
`sql.ErrNoRows`, which is neither `StorageUnavailable` nor `ConstraintViolation`; and the
failed `Scan` of `ReadBook` on an existing row is returned although it has no kind. -/
theorem storage_failure_not_classified :
    (¬ ∃ tax : ErrorKind → GoError, ∀ d : DriverError, ∃ k : ErrorKind,
        (CreateBook (failingWith d) () (some { Book := some dune })).1 = .err (tax k))
      ∧ (CreateBook (failingWith (.unreachable "connection refused")) ()
            (some { Book := some dune })).1
          ≠ (CreateBook (failingWith (.unreachable "i/o timeout")) ()
              (some { Book := some dune })).1
      ∧ (CreateBook emptyDB () (some { Book := some dune })).1 = .err .ErrNoRows
      ∧ GoError.ErrNoRows.kind ≠ some ErrorKind.StorageUnavailable
      ∧ GoError.ErrNoRows.kind ≠ some ErrorKind.ConstraintViolation
      ∧ (ReadBook pg { rows := [duneRecord], nextId := 2 } (some { Id := 1 })).1
          = .err (.ScanError 5)
      ∧ (GoError.ScanError 5).kind = none := by
  refine ⟨?_, by decide, rfl, by decide, by decide, rfl, rfl⟩
  rintro ⟨tax, h⟩
  have h' : ∀ d : DriverError, ∃ k : ErrorKind, GoError.Driver d = tax k := by
    intro d
    obtain ⟨k, hk⟩ := h d
    rw [CreateBook_failingWith] at hk
    exact ⟨k, by injection hk⟩
  choose f hf using h'
  have hcard : Fintype.card ErrorKind < Fintype.card (Fin 5) := by decide
  obtain ⟨i, j, hij, hk⟩ := Fintype.exists_ne_map_eq_of_card_lt
    (fun i : Fin 5 => f (nthFailure i.val)) hcard
  have hk' : f (nthFailure i.val) = f (nthFailure j.val) := hk
  have heq : GoError.Driver (nthFailure i.val) = GoError.Driver (nthFailure j.val) := by
    rw [hf, hf, hk']
  simp only [GoError.Driver.injEq] at heq
  exact hij (Fin.ext (nthFailure_injective _ _ heq))

/-- C9, amended: whenever the storage call of a handler fails with a driver error `d`, the
handler returns that same error, unchanged, and no response, for each of `CreateBook`,
`ReadBook`, `UpdateBook` and `DeleteBook`; a query that returns no row makes `CreateBook`,
`ReadBook` and `UpdateBook` return `sql.ErrNoRows`. -/
theorem storage_failure_returned_unchanged {σ : Type} (db : DB σ) (s : σ) (d : DriverError) :
    (∀ b : Book,
        ((db.QueryRowContext s .insertBook
          [.string b.Title, .string b.Author, .int64 b.Year, .string b.Language,
           (if b.Genres = [] then Value.null else Value.array b.Genres),
           .int64 b.Price, .int64 b.Quantity]).1 = .error d →
          (CreateBook db s (some { Book := some b })).1 = .err (.Driver d))
        ∧ ((db.QueryRowContext s .insertBook
          [.string b.Title, .string b.Author, .int64 b.Year, .string b.Language,
           (if b.Genres = [] then Value.null else Value.array b.Genres),
           .int64 b.Price, .int64 b.Quantity]).1 = .ok none →
          (CreateBook db s (some { Book := some b })).1 = .err .ErrNoRows))
      ∧ (∀ req : Option ReadBookRequest,
          ((db.QueryRowContext s .selectBook [.int64 (ReadBookRequest.GetId req)]).1 = .error d →
            (ReadBook db s req).1 = .err (.Driver d))
          ∧ ((db.QueryRowContext s .selectBook [.int64 (ReadBookRequest.GetId req)]).1 = .ok none →
            (ReadBook db s req).1 = .err .ErrNoRows))
      ∧ (∀ (i : Int) (b : Book),
          ((db.QueryRowContext s .updateBook
            [.string b.Title, .string b.Author, .int64 b.Year, .string b.Language,
             (if b.Genres = [] then Value.null else Value.array b.Genres),
             .int64 b.Price, .int64 b.Quantity, .int64 i]).1 = .error d →
            (UpdateBook db s (some { Id := i, Book := some b })).1 = .err (.Driver d))
          ∧ ((db.QueryRowContext s .updateBook
            [.string b.Title, .string b.Author, .int64 b.Year, .string b.Language,
             (if b.Genres = [] then Value.null else Value.array b.Genres),
             .int64 b.Price, .int64 b.Quantity, .int64 i]).1 = .ok none →
            (UpdateBook db s (some { Id := i, Book := some b })).1 = .err .ErrNoRows))
      ∧ (∀ req : Option DeleteBookRequest,
          (db.ExecContext s .deleteBook [.int64 (DeleteBookRequest.GetId req)]).1 = .error d →
            (DeleteBook db s req).1 = .err (.Driver d)) := by
  have hcreate : ∀ (b : Book) (r : Row),
      (db.QueryRowContext s .insertBook
          [.string b.Title, .string b.Author, .int64 b.Year, .string b.Language,
           (if b.Genres = [] then Value.null else Value.array b.Genres),
           .int64 b.Price, .int64 b.Quantity]).1 = r →
      (CreateBook db s (some { Book := some b })).1
        = (match scanId r with
           | .error e => .err e
           | .ok id => .ok { b with Id := id }) := by
    intro b r h
    cases hg : b.Genres with
    | nil =>
      rw [hg] at h
      simp only [if_true] at h
      simp only [CreateBook, CreateBookRequest.GetBook, TextArray.Set, TextArray.Value, hg, h]
      split <;> simp_all
    | cons x xs =>
      rw [hg] at h
      simp only [List.cons_ne_nil, if_false, reduceCtorEq] at h
      simp only [CreateBook, CreateBookRequest.GetBook, TextArray.Set, TextArray.Value, hg, h]
      split <;> simp_all
  have hupdate : ∀ (i : Int) (b : Book) (r : Row),
      (db.QueryRowContext s .updateBook
          [.string b.Title, .string b.Author, .int64 b.Year, .string b.Language,
           (if b.Genres = [] then Value.null else Value.array b.Genres),
           .int64 b.Price, .int64 b.Quantity, .int64 i]).1 = r →
      (UpdateBook db s (some { Id := i, Book := some b })).1
        = (match scanId r with
           | .error e => .err e
           | .ok id => .ok { b with Id := id }) := by
    intro i b r h
    cases hg : b.Genres with
    | nil =>
      rw [hg] at h
      simp only [if_true] at h
      simp only [UpdateBook, UpdateBookRequest.GetBook, UpdateBookRequest.GetId, TextArray.Set,
        TextArray.Value, hg, h]
      split <;> simp_all
    | cons x xs =>
      rw [hg] at h
      simp only [List.cons_ne_nil, if_false, reduceCtorEq] at h
      simp only [UpdateBook, UpdateBookRequest.GetBook, UpdateBookRequest.GetId, TextArray.Set,
        TextArray.Value, hg, h]
      split <;> simp_all
  refine ⟨?_, ?_, ?_, ?_⟩
  · intro b
    constructor
    · intro h
      rw [hcreate b _ h]
      rfl
    · intro h
      rw [hcreate b _ h]
      rfl
  · intro req
    constructor
    · intro h
      simp [ReadBook, h, scanBook, Row.columns, bind, Except.bind]
    · intro h
      simp [ReadBook, h, scanBook, Row.columns, bind, Except.bind]
  · intro i b
    constructor
    · intro h
      rw [hupdate i b _ h]
      rfl
    · intro h
      rw [hupdate i b _ h]
      rfl
  · intro req h
    simp [DeleteBook, h]

/-- Witness of C9, amended: against a storage that cannot be reached, each handler returns the
error of the storage. -/
theorem storage_failure_returned_unchanged_witness :
    (CreateBook downDB () (some { Book := some dune })).1
        = .err (.Driver (.unreachable "connection refused"))
      ∧ (ReadBook downDB () (some { Id := 1 })).1
        = .err (.Driver (.unreachable "connection refused"))
      ∧ (UpdateBook downDB () (some { Id := 1, Book := some dune })).1
        = .err (.Driver (.unreachable "connection refused"))
      ∧ (DeleteBook downDB () (some { Id := 1 })).1
        = .err (.Driver (.unreachable "connection refused")) :=
  ⟨((storage_failure_returned_unchanged downDB () (.unreachable "connection refused")).1
      dune).1 rfl,
   ((storage_failure_returned_unchanged downDB () (.unreachable "connection refused")).2.1
      (some { Id := 1 })).1 rfl,
   ((storage_failure_returned_unchanged downDB () (.unreachable "connection refused")).2.2.1
      1 dune).1 rfl,
   (storage_failure_returned_unchanged downDB () (.unreachable "connection refused")).2.2.2
      (some { Id := 1 }) rfl⟩

/-! ## The service descriptor -/

set_option maxRecDepth 100000

/-- C10: the descriptor embedded in `booking.pb.go` declares one service, `BookingService`,
with exactly the four methods `CreateBook` (`POST /books`, the whole body the request),
`ReadBook` (`GET /books/{id}`), `UpdateBook` (`PUT /books/{id}`, the whole body the rest of the
request) and `DeleteBook` (`DELETE /books/{id}`), of request and response types
`CreateBookRequest` to `Book`, `ReadBookRequest` to `Book`, `UpdateBookRequest` to `Book`,
`DeleteBookRequest` to `DeleteBookResponse`, in the descriptor and in the Go type indices. -/
theorem BookingService_descriptor :
    readServices file_booking_proto_rawDesc
        = some [{ name := "BookingService",
                  methods :=
                    [{ name := "CreateBook", inputType := ".booking.CreateBookRequest",
                       outputType := ".booking.Book",
                       http := some { verb := "POST", path := "/books", body := "*" } },
                     { name := "ReadBook", inputType := ".booking.ReadBookRequest",
                       outputType := ".booking.Book",
                       http := some { verb := "GET", path := "/books/\x7bid\x7d", body := "" } },
                     { name := "UpdateBook", inputType := ".booking.UpdateBookRequest",
                       outputType := ".booking.Book",
                       http := some { verb := "PUT", path := "/books/\x7bid\x7d", body := "*" } },
                     { name := "DeleteBook", inputType := ".booking.DeleteBookRequest",
                       outputType := ".booking.DeleteBookResponse",
                       http := some { verb := "DELETE", path := "/books/\x7bid\x7d",
                                      body := "" } }] }]
      ∧ readMessageNames file_booking_proto_rawDesc = some file_booking_proto_goTypes
      ∧ methodInputGoTypes
          = ["CreateBookRequest", "ReadBookRequest", "UpdateBookRequest", "DeleteBookRequest"]
      ∧ methodOutputGoTypes = ["Book", "Book", "Book", "DeleteBookResponse"] := by
  refine ⟨?_, ?_, ?_, ?_⟩ <;> decide

/-! ## The wire encoding read back -/

/-- A varint that fits `fuel + 1` groups is read back, with the bytes that follow it. -/
theorem readVarint_writeVarintAux (fuel : Nat) :
    ∀ (n : Nat) (rest : List Nat), n < 128 ^ (fuel + 1) →
      readVarint (fuel + 1) (writeVarintAux fuel n ++ rest) = some (n, rest) := by
  induction fuel with
  | zero =>
    intro n rest hn
    have hn' : n < 128 := by simpa using hn
    have hmod : n % 128 = n := Nat.mod_eq_of_lt hn'
    simp [writeVarintAux, readVarint, hmod, hn']
  | succ k ih =>
    intro n rest hn
    by_cases h : n < 128
    · simp [writeVarintAux, readVarint, h]
    · have hdiv : n / 128 < 128 ^ (k + 1) := by
        rw [Nat.div_lt_iff_lt_mul (by norm_num)]
        calc n < 128 ^ (k + 1 + 1) := hn
          _ = 128 ^ (k + 1) * 128 := by rw [pow_succ]
      have hc : ¬ (n % 128 + 128 < 128) := by omega
      have hrec := ih (n / 128) rest hdiv
      have heq : (n % 128 + 128) % 128 + 128 * (n / 128) = n := by omega
      simp only [writeVarintAux, h, if_false, List.cons_append]
      rw [readVarint]
      simp only [hc, if_false, hrec, heq]

/-- A varint of a 64-bit value is read back, with the bytes that follow it. -/
theorem readVarint_writeVarint (n : Nat) (rest : List Nat) (hn : n < 18446744073709551616) :
    readVarint 10 (writeVarint n ++ rest) = some (n, rest) := by
  apply readVarint_writeVarintAux 9 n rest
  calc n < 18446744073709551616 := hn
    _ ≤ 128 ^ (9 + 1) := by norm_num

/-- A varint has at least one byte. -/
theorem writeVarintAux_ne_nil (fuel n : Nat) : writeVarintAux fuel n ≠ [] := by
  cases fuel with
  | zero => simp [writeVarintAux]
  | succ k =>
    by_cases h : n < 128 <;> simp [writeVarintAux, h]

/-- A field is read back, with the bytes that follow it. -/
theorem readField_writeField (f : Nat × WireValue) (rest : List Nat) (hf : WireValue.fits f) :
    readField (writeField f ++ rest) = some (f, rest) := by
  obtain ⟨k, v⟩ := f
  obtain ⟨hk, hv⟩ := hf
  simp only at hk hv
  cases v with
  | varint n =>
    simp only at hv
    have h1 := readVarint_writeVarint (k * 8) (writeVarint n ++ rest) (by omega)
    have h2 := readVarint_writeVarint n rest hv
    have hm : k * 8 % 8 = 0 := by omega
    have hd : k * 8 / 8 = k := by omega
    simp only [writeField, List.append_assoc, readField, h1, hm, if_true, h2, hd]
  | i64 b =>
    simp only at hv
    have h1 := readVarint_writeVarint (k * 8 + 1) (b ++ rest) (by omega)
    have hm : (k * 8 + 1) % 8 = 1 := by omega
    have hd : (k * 8 + 1) / 8 = k := by omega
    have ht : List.take 8 (b ++ rest) = b := by rw [← hv]; exact List.take_left _ _
    have hdr : List.drop 8 (b ++ rest) = rest := by rw [← hv]; exact List.drop_left _ _
    simp [writeField, readField, h1, hm, hd, ht, hdr]
    omega
  | len b =>
    simp only at hv
    have h1 := readVarint_writeVarint (k * 8 + 2) (writeVarint b.length ++ (b ++ rest))
      (by omega)
    have h2 := readVarint_writeVarint b.length (b ++ rest) hv
    have hm : (k * 8 + 2) % 8 = 2 := by omega
    have hd : (k * 8 + 2) / 8 = k := by omega
    have hlen : ¬ (b ++ rest).length < b.length := by simp
    have ht : List.take b.length (b ++ rest) = b := List.take_left _ _
    have hdr : List.drop b.length (b ++ rest) = rest := List.drop_left _ _
    simp [writeField, readField, h1, h2, hm, hd, hlen, ht, hdr]
  | i32 b =>
    simp only at hv
    have h1 := readVarint_writeVarint (k * 8 + 5) (b ++ rest) (by omega)
    have hm : (k * 8 + 5) % 8 = 5 := by omega
    have hd : (k * 8 + 5) / 8 = k := by omega
    have ht : List.take 4 (b ++ rest) = b := by rw [← hv]; exact List.take_left _ _
    have hdr : List.drop 4 (b ++ rest) = rest := by rw [← hv]; exact List.drop_left _ _
    simp [writeField, readField, h1, hm, hd, ht, hdr]
    omega

/-- A field has at least one byte. -/
theorem writeField_length_pos (f : Nat × WireValue) : 1 ≤ (writeField f).length := by
  obtain ⟨k, v⟩ := f
  have h : ∀ n, 1 ≤ (writeVarint n).length := by
    intro n
    have := writeVarintAux_ne_nil 9 n
    cases hw : writeVarintAux 9 n with
    | nil => exact absurd hw this
    | cons x xs => simp [writeVarint, hw]
  cases v with
  | varint n => have := h (k * 8); simp [writeField]; omega
  | i64 b => have := h (k * 8 + 1); simp [writeField]; omega
  | len b => have := h (k * 8 + 2); simp [writeField]; omega
  | i32 b => have := h (k * 8 + 5); simp [writeField]; omega

/-- The fields of a message are read back, in order, with enough fuel. -/
theorem readFields_writeFields (fs : List (Nat × WireValue)) :
    (∀ f ∈ fs, WireValue.fits f) → ∀ fuel, (writeFields fs).length ≤ fuel →
      readFields fuel (writeFields fs) = some fs := by
  induction fs with
  | nil =>
    intro _ fuel _
    cases fuel <;> simp [writeFields, readFields]
  | cons f fs ih =>
    intro hfs fuel hfuel
    have hpos := writeField_length_pos f
    have hf := hfs f (List.mem_cons_self _ _)
    have hrest : ∀ g ∈ fs, WireValue.fits g := fun g hg => hfs g (List.mem_cons_of_mem _ hg)
    simp only [writeFields, List.length_append] at hfuel
    cases fuel with
    | zero => omega
    | succ k =>
      have hread := readField_writeField f (writeFields fs) hf
      have hih := ih hrest k (by omega)
      cases hw : writeField f ++ writeFields fs with
      | nil =>
        have : (writeField f ++ writeFields fs).length = 0 := by rw [hw]; rfl
        simp only [List.length_append] at this
        omega
      | cons b bs =>
        rw [hw] at hread
        simp only [writeFields, hw, readFields, hread, hih]

/-- The fields of a message are read back from its bytes. -/
theorem readMessage_writeFields (fs : List (Nat × WireValue)) (h : ∀ f ∈ fs, WireValue.fits f) :
    readMessage (writeFields fs) = some fs :=
  readFields_writeFields fs h _ (Nat.le_refl _)

/-- A character is read back from its UTF-8 bytes, with the bytes that follow it. -/
theorem utf8DecodeChar_encode (c : Char) (rest : List Nat) :
    utf8DecodeChar (utf8EncodeChar c ++ rest) = some (c, rest) := by
  have hv : c.toNat < 55296 ∨ (57343 < c.toNat ∧ c.toNat < 1114112) := c.valid
  have hc : Char.ofNat c.toNat = c := Char.ofNat_toNat c
  simp only [utf8EncodeChar]
  generalize c.toNat = n at hv hc
  by_cases h1 : n < 128
  · simp [h1, utf8DecodeChar, hc]
  · by_cases h2 : n < 2048
    · have e0 : ¬ (192 + n / 64 < 128) := by omega
      have e1 : 192 ≤ 192 + n / 64 ∧ 192 + n / 64 < 224 := by omega
      have e2 : 128 ≤ 128 + n % 64 ∧ 128 + n % 64 < 192 := by omega
      have e3 : (192 + n / 64 - 192) * 64 + (128 + n % 64 - 128) = n := by omega
      have e4 : 128 ≤ n := by omega
      simp only [h1, h2, if_true, if_false, List.cons_append, List.nil_append, utf8DecodeChar,
        e0, e1, e3, isCont]
      simp [e2, e4, hc]
    · by_cases h3 : n < 65536
      · have e0 : ¬ (224 + n / 4096 < 128) := by omega
        have e0' : ¬ (192 ≤ 224 + n / 4096 ∧ 224 + n / 4096 < 224) := by omega
        have e1 : 224 ≤ 224 + n / 4096 ∧ 224 + n / 4096 < 240 := by omega
        have e2 : 128 ≤ 128 + n / 64 % 64 ∧ 128 + n / 64 % 64 < 192 := by omega
        have e2' : 128 ≤ 128 + n % 64 ∧ 128 + n % 64 < 192 := by omega
        have e3 : (224 + n / 4096 - 224) * 4096 + (128 + n / 64 % 64 - 128) * 64
            + (128 + n % 64 - 128) = n := by omega
        have e4 : 2048 ≤ n := by omega
        simp only [h1, h2, h3, if_true, if_false, List.cons_append, List.nil_append,
          utf8DecodeChar, e0, e0', e1, e3, isCont, isScalar]
        have e5 : (decide (n < 55296) || decide (57343 < n) && decide (n < 1114112)) = true := by
          rcases hv with hv | hv
          · simp [hv]
          · simp [hv.1, hv.2]
        simp [e2, e2', e4, e5, hc]
      · have e0 : ¬ (240 + n / 262144 < 128) := by omega
        have e0' : ¬ (192 ≤ 240 + n / 262144 ∧ 240 + n / 262144 < 224) := by omega
        have e0'' : ¬ (224 ≤ 240 + n / 262144 ∧ 240 + n / 262144 < 240) := by omega
        have e1 : 240 ≤ 240 + n / 262144 ∧ 240 + n / 262144 < 248 := by omega
        have e2 : 128 ≤ 128 + n / 4096 % 64 ∧ 128 + n / 4096 % 64 < 192 := by omega
        have e2' : 128 ≤ 128 + n / 64 % 64 ∧ 128 + n / 64 % 64 < 192 := by omega
        have e2'' : 128 ≤ 128 + n % 64 ∧ 128 + n % 64 < 192 := by omega
        have e3 : (240 + n / 262144 - 240) * 262144 + (128 + n / 4096 % 64 - 128) * 4096
            + (128 + n / 64 % 64 - 128) * 64 + (128 + n % 64 - 128) = n := by omega
        have e4 : 65536 ≤ n := by omega
        simp only [h1, h2, h3, if_true, if_false, List.cons_append, List.nil_append,
          utf8DecodeChar, e0, e0', e0'', e1, e3, isCont, isScalar]
        have e5 : (decide (n < 55296) || decide (57343 < n) && decide (n < 1114112)) = true := by
          rcases hv with hv | hv
          · simp [hv]
          · simp [hv.1, hv.2]
        simp [e2, e2', e2'', e4, e5, hc]

/-- The UTF-8 bytes of a character are at least one byte. -/
theorem utf8EncodeChar_length_pos (c : Char) : 1 ≤ (utf8EncodeChar c).length := by
  unfold utf8EncodeChar
  split
  · simp
  · split
    · simp
    · split <;> simp

/-- The characters are read back from their UTF-8 bytes, with enough fuel. -/
theorem utf8DecodeChars_encode (cs : List Char) :
    ∀ fuel, (utf8EncodeChars cs).length ≤ fuel →
      utf8DecodeChars fuel (utf8EncodeChars cs) = some cs := by
  induction cs with
  | nil =>
    intro fuel _
    cases fuel <;> simp [utf8EncodeChars, utf8DecodeChars]
  | cons c cs ih =>
    intro fuel hfuel
    have hpos := utf8EncodeChar_length_pos c
    simp only [utf8EncodeChars, List.length_append] at hfuel
    cases fuel with
    | zero => omega
    | succ k =>
      have hread := utf8DecodeChar_encode c (utf8EncodeChars cs)
      have hih := ih k (by omega)
      cases hw : utf8EncodeChar c ++ utf8EncodeChars cs with
      | nil =>
        have : (utf8EncodeChar c ++ utf8EncodeChars cs).length = 0 := by rw [hw]; rfl
        simp only [List.length_append] at this
        omega
      | cons b bs =>
        rw [hw] at hread
        simp only [utf8EncodeChars, hw, utf8DecodeChars, hread, hih]

/-- A text is read back from its UTF-8 bytes. -/
theorem utf8Decode_encode (s : String) : utf8Decode (utf8Encode s) = some s := by
  simp only [utf8Decode, utf8Encode, utf8DecodeChars_encode s.data _ (Nat.le_refl _)]

/-- The UTF-8 bytes of a text are fewer than 2 ^ 64 when its characters are fewer than 2 ^ 62. -/
theorem utf8EncodeChars_length_le (cs : List Char) :
    (utf8EncodeChars cs).length ≤ 4 * cs.length := by
  induction cs with
  | nil => simp [utf8EncodeChars]
  | cons c cs ih =>
    have h : (utf8EncodeChar c).length ≤ 4 := by
      unfold utf8EncodeChar
      split
      · simp
      · split
        · simp
        · split <;> simp
    simp only [utf8EncodeChars, List.length_append, List.length_cons]
    omega

/-- An `int64` is read back from its 64-bit pattern. -/
theorem int64Of_toUint64 (z : Int) (h : -9223372036854775808 ≤ z ∧ z < 9223372036854775808) :
    int64Of (toUint64 z) = z := by
  unfold int64Of toUint64
  split <;> omega

/-- An `int32` is read back from the 64-bit pattern of its sign extension. -/
theorem int32Of_toUint64 (z : Int) (h : -2147483648 ≤ z ∧ z < 2147483648) :
    int32Of (toUint64 z) = z := by
  unfold int32Of toUint64
  split <;> omega

/-- The 64-bit pattern of an integer fits 64 bits. -/
theorem toUint64_lt (z : Int) : toUint64 z < 18446744073709551616 := by
  unfold toUint64
  omega

/-- Merging the fields of two lists is merging the first, then the second. -/
theorem mergeFields_append (xs ys : List (Nat × WireValue)) :
    ∀ acc : Book, mergeFields acc (xs ++ ys)
      = (match mergeFields acc xs with
         | some acc' => mergeFields acc' ys
         | none => none) := by
  induction xs with
  | nil => intro acc; simp [mergeFields]
  | cons x xs ih =>
    intro acc
    simp only [List.cons_append, mergeFields]
    cases mergeField acc x with
    | none => rfl
    | some acc' => exact ih acc'

/-- Merging a field that is written only when the value is not the zero value. -/
theorem mergeFields_optional (acc acc' : Book) (c : Prop) [Decidable c] (f : Nat × WireValue)
    (h1 : c → acc = acc') (h2 : ¬ c → mergeField acc f = some acc') :
    mergeFields acc (if c then [] else [f]) = some acc' := by
  by_cases hc : c
  · simp [hc, mergeFields, h1 hc]
  · simp [hc, mergeFields, h2 hc]

/-- Merging the occurrences of tag 6 appends their texts to `Genres`, in order. -/
theorem mergeFields_genres (gs : List String) :
    ∀ acc : Book, mergeFields acc (gs.map (fun g => (6, WireValue.len (utf8Encode g))))
      = some { acc with Genres := acc.Genres ++ gs } := by
  induction gs with
  | nil => intro acc; simp [mergeFields]
  | cons g gs ih =>
    intro acc
    simp only [List.map_cons, mergeFields, mergeField, utf8Decode_encode]
    simp [ih]

/-- Every field the encoder writes for a `Book` in range fits 64 bits. -/
theorem bookFields_fits (b : Book) (h : b.inRange) : ∀ f ∈ bookFields b, WireValue.fits f := by
  obtain ⟨_, _, _, _, ht, ha, hl, hg⟩ := h
  intro f hf
  simp only [bookFields, List.mem_append, List.mem_map] at hf
  rcases hf with hf | hf | hf | hf | hf | hf | hf | hf
  · split at hf
    · cases hf
    · simp at hf; subst hf; exact ⟨by norm_num, toUint64_lt _⟩
  · split at hf
    · cases hf
    · simp at hf; subst hf; exact ⟨by norm_num, ht⟩
  · split at hf
    · cases hf
    · simp at hf; subst hf; exact ⟨by norm_num, ha⟩
  · split at hf
    · cases hf
    · simp at hf; subst hf; exact ⟨by norm_num, toUint64_lt _⟩
  · split at hf
    · cases hf
    · simp at hf; subst hf; exact ⟨by norm_num, hl⟩
  · obtain ⟨g, hgm, rfl⟩ := hf
    exact ⟨by norm_num, hg g hgm⟩
  · split at hf
    · cases hf
    · simp at hf; subst hf; exact ⟨by norm_num, toUint64_lt _⟩
  · split at hf
    · cases hf
    · simp at hf; subst hf; exact ⟨by norm_num, toUint64_lt _⟩

/-- Merging the fields of a `Book` into the zero `Book` gives the `Book`. -/
theorem mergeFields_bookFields (b : Book) (h : b.inRange) :
    mergeFields zeroBook (bookFields b) = some b := by
  obtain ⟨hid, hy, hp, hq, _⟩ := h
  obtain ⟨id, title, author, year, language, genres, price, quantity⟩ := b
  simp only at hid hy hp hq
  have s1 : mergeFields zeroBook
      (if id = 0 then [] else [(1, WireValue.varint (toUint64 id))])
      = some ⟨id, "", "", 0, "", [], 0, 0⟩ :=
    mergeFields_optional _ _ _ _ (fun hc => by simp [zeroBook, hc])
      (fun _ => by simp [mergeField, zeroBook, int64Of_toUint64 id hid])
  have s2 : mergeFields ⟨id, "", "", 0, "", [], 0, 0⟩
      (if title = "" then [] else [(2, WireValue.len (utf8Encode title))])
      = some ⟨id, title, "", 0, "", [], 0, 0⟩ :=
    mergeFields_optional _ _ _ _ (fun hc => by simp [hc])
      (fun _ => by simp [mergeField, utf8Decode_encode])
  have s3 : mergeFields ⟨id, title, "", 0, "", [], 0, 0⟩
      (if author = "" then [] else [(3, WireValue.len (utf8Encode author))])
      = some ⟨id, title, author, 0, "", [], 0, 0⟩ :=
    mergeFields_optional _ _ _ _ (fun hc => by simp [hc])
      (fun _ => by simp [mergeField, utf8Decode_encode])
  have s4 : mergeFields ⟨id, title, author, 0, "", [], 0, 0⟩
      (if year = 0 then [] else [(4, WireValue.varint (toUint64 year))])
      = some ⟨id, title, author, year, "", [], 0, 0⟩ :=
    mergeFields_optional _ _ _ _ (fun hc => by simp [hc])
      (fun _ => by simp [mergeField, int32Of_toUint64 year hy])
  have s5 : mergeFields ⟨id, title, author, year, "", [], 0, 0⟩
      (if language = "" then [] else [(5, WireValue.len (utf8Encode language))])
      = some ⟨id, title, author, year, language, [], 0, 0⟩ :=
    mergeFields_optional _ _ _ _ (fun hc => by simp [hc])
      (fun _ => by simp [mergeField, utf8Decode_encode])
  have s6 : mergeFields ⟨id, title, author, year, language, [], 0, 0⟩
      (genres.map (fun g => (6, WireValue.len (utf8Encode g))))
      = some ⟨id, title, author, year, language, genres, 0, 0⟩ := by
    rw [mergeFields_genres]; simp
  have s7 : mergeFields ⟨id, title, author, year, language, genres, 0, 0⟩
      (if price = 0 then [] else [(7, WireValue.varint (toUint64 price))])
      = some ⟨id, title, author, year, language, genres, price, 0⟩ :=
    mergeFields_optional _ _ _ _ (fun hc => by simp [hc])
      (fun _ => by simp [mergeField, int32Of_toUint64 price hp])
  have s8 : mergeFields ⟨id, title, author, year, language, genres, price, 0⟩
      (if quantity = 0 then [] else [(8, WireValue.varint (toUint64 quantity))])
      = some ⟨id, title, author, year, language, genres, price, quantity⟩ :=
    mergeFields_optional _ _ _ _ (fun hc => by simp [hc])
      (fun _ => by simp [mergeField, int32Of_toUint64 quantity hq])
  simp only [bookFields, mergeFields_append, s1, s2, s3, s4, s5, s6, s7, s8]

/-- C11: a `Book` a Go value can hold (any identity, texts, integers, zero values and no
genres included) is decoded from its binary wire encoding under the tags of the schema as the
same `Book`, its genres in the same order and multiplicity; on the wire, `Id` is tag 1 as a
varint (byte 8), `Title` tag 2 (byte 18), `Genres` tag 6 once per element (byte 50),
`Quantity` tag 8 as a varint (byte 64). -/
theorem decodeBook_encodeBook (b : Book) (h : b.inRange) :
    decodeBook (encodeBook b) = some b
      ∧ encodeBook { Id := 1, Title := "A", Author := "", Year := 0, Language := "",
                     Genres := ["a", "", "a"], Price := 0, Quantity := 3 }
          = [8, 1, 18, 1, 65, 50, 1, 97, 50, 0, 50, 1, 97, 64, 3] := by
  refine ⟨?_, by decide⟩
  simp only [decodeBook, encodeBook, readMessage_writeFields _ (bookFields_fits b h),
    mergeFields_bookFields b h]

/-- Witness of C11: `dune`, and `dune` with its year at zero and no genres. -/
theorem decodeBook_encodeBook_witness :
    decodeBook (encodeBook dune) = some dune
      ∧ decodeBook (encodeBook { dune with Year := 0, Genres := [] })
          = some { dune with Year := 0, Genres := [] } :=
  ⟨(decodeBook_encodeBook dune
      ⟨by decide, by decide, by decide, by decide, by decide, by decide, by decide,
       by decide⟩).1,
   (decodeBook_encodeBook { dune with Year := 0, Genres := [] }
      ⟨by decide, by decide, by decide, by decide, by decide, by decide, by decide,
       by decide⟩).1⟩

/-! ## Statements issued and absent books -/

/-- C12: each handler issues at most one statement, for every request and every behaviour
of the storage: `CreateBook` and `UpdateBook` (over any conversion of the genres) issue exactly
their insert or update when the conversion succeeds and none when it fails, returning the
error of the conversion; `ReadBook` and `DeleteBook` always issue exactly their lookup or
delete; whatever the statement returns, a failure included, nothing is issued after it and the
storage is left as that statement left it. -/
theorem one_statement_per_operation {σ : Type} (set : List String → Except GoError TextArray)
    (db : DB σ) (s : σ) :
    (CreateBookWith TextArray.Set db s = CreateBook db s
        ∧ UpdateBookWith TextArray.Set db s = UpdateBook db s)
      ∧ (∀ (b : Book) (ga : TextArray), set b.Genres = .ok ga →
          (CreateBookWith set db.traced (s, []) (some { Book := some b })).2
            = ((db.QueryRowContext s .insertBook
                [.string b.Title, .string b.Author, .int64 b.Year, .string b.Language,
                 ga.Value, .int64 b.Price, .int64 b.Quantity]).2,
               [(Statement.insertBook,
                 [.string b.Title, .string b.Author, .int64 b.Year, .string b.Language,
                  ga.Value, .int64 b.Price, .int64 b.Quantity])]))
      ∧ (∀ (b : Book) (e : GoError), set b.Genres = .error e →
          CreateBookWith set db.traced (s, []) (some { Book := some b }) = (.err e, (s, [])))
      ∧ (∀ (i : Int) (b : Book) (ga : TextArray), set b.Genres = .ok ga →
          (UpdateBookWith set db.traced (s, []) (some { Id := i, Book := some b })).2
            = ((db.QueryRowContext s .updateBook
                [.string b.Title, .string b.Author, .int64 b.Year, .string b.Language,
                 ga.Value, .int64 b.Price, .int64 b.Quantity, .int64 i]).2,
               [(Statement.updateBook,
                 [.string b.Title, .string b.Author, .int64 b.Year, .string b.Language,
                  ga.Value, .int64 b.Price, .int64 b.Quantity, .int64 i])]))
      ∧ (∀ (i : Int) (b : Book) (e : GoError), set b.Genres = .error e →
          UpdateBookWith set db.traced (s, []) (some { Id := i, Book := some b })
            = (.err e, (s, [])))
      ∧ (∀ req : Option ReadBookRequest,
          (ReadBook db.traced (s, []) req).2
            = ((db.QueryRowContext s .selectBook [.int64 (ReadBookRequest.GetId req)]).2,
               [(Statement.selectBook, [.int64 (ReadBookRequest.GetId req)])]))
      ∧ (∀ req : Option DeleteBookRequest,
          (DeleteBook db.traced (s, []) req).2
            = ((db.ExecContext s .deleteBook [.int64 (DeleteBookRequest.GetId req)]).2,
               [(Statement.deleteBook, [.int64 (DeleteBookRequest.GetId req)])]))
      ∧ (∀ req : Option CreateBookRequest,
          (CreateBookWith set db.traced (s, []) req).2.2.length ≤ 1)
      ∧ (∀ req : Option UpdateBookRequest,
          (UpdateBookWith set db.traced (s, []) req).2.2.length ≤ 1) := by
  refine ⟨⟨rfl, rfl⟩, ?_, ?_, ?_, ?_, ?_, ?_, ?_, ?_⟩
  · intro b ga h
    simp only [CreateBookWith, CreateBookRequest.GetBook, h, DB.traced]
    split <;> simp
  · intro b e h
    simp only [CreateBookWith, CreateBookRequest.GetBook, h]
  · intro i b ga h
    simp only [UpdateBookWith, UpdateBookRequest.GetBook, UpdateBookRequest.GetId, h, DB.traced]
    split <;> simp
  · intro i b e h
    simp only [UpdateBookWith, UpdateBookRequest.GetBook, h]
  · intro req
    simp only [ReadBook, DB.traced]
    split <;> simp
  · intro req
    simp only [DeleteBook, DB.traced]
    split <;> simp
  · intro req
    simp only [CreateBookWith, DB.traced]
    split
    · simp
    · split
      · simp
      · split <;> simp
  · intro req
    simp only [UpdateBookWith, DB.traced]
    split
    · simp
    · split
      · simp
      · split <;> simp

/-- Witness of C12: against a storage that cannot be reached, `CreateBook` of `dune` issues
its insert and nothing after it; with a conversion that refuses the genres it issues nothing. -/
theorem one_statement_per_operation_witness :
    (CreateBookWith TextArray.Set downDB.traced ((), []) (some { Book := some dune })).2
        = ((), [(Statement.insertBook,
                 [.string "Dune", .string "Herbert", .int64 1965, .string "en",
                  .array ["sci-fi", "classic"], .int64 999, .int64 3])])
      ∧ CreateBookWith refusingSet downDB.traced ((), []) (some { Book := some dune })
        = (.err (.ScanError 0), ((), [])) :=
  ⟨(one_statement_per_operation TextArray.Set downDB ()).2.1 dune
      { Elements := ["sci-fi", "classic"], Status := .Present } rfl,
   (one_statement_per_operation refusingSet downDB ()).2.2.1 dune (.ScanError 0) rfl⟩

/-- C13, at the failing input: `CreateBook` and `UpdateBook` of a request without a book (or
of a nil request) dereference the nil `*Book` and panic, before any statement is issued, where
a response or an error is claimed; with a book they never panic, and `ReadBook` and
`DeleteBook` never panic, a nil request included. -/
theorem absent_book_panics {σ : Type} (db : DB σ) (s : σ) :
    CreateBook db s (some { Book := none }) = (.panic, s)
      ∧ CreateBook db s none = (.panic, s)
      ∧ (∀ i : Int, UpdateBook db s (some { Id := i, Book := none }) = (.panic, s))
      ∧ UpdateBook db s none = (.panic, s)
      ∧ (CreateBook db.traced (s, []) (some { Book := none })).2.2 = []
      ∧ (∀ b : Book, (CreateBook db s (some { Book := some b })).1 ≠ .panic)
      ∧ (∀ (i : Int) (b : Book), (UpdateBook db s (some { Id := i, Book := some b })).1 ≠ .panic)
      ∧ (∀ req : Option ReadBookRequest, (ReadBook db s req).1 ≠ .panic)
      ∧ (∀ req : Option DeleteBookRequest, (DeleteBook db s req).1 ≠ .panic) := by
  refine ⟨rfl, rfl, fun _ => rfl, rfl, rfl, ?_, ?_, ?_, ?_⟩
  · intro b
    cases hg : b.Genres <;>
      simp only [CreateBook, CreateBookRequest.GetBook, TextArray.Set, hg] <;>
      split <;> simp
  · intro i b
    cases hg : b.Genres <;>
      simp only [UpdateBook, UpdateBookRequest.GetBook, TextArray.Set, hg] <;>
      split <;> simp
  · intro req
    simp only [ReadBook]
    split <;> simp
  · intro req
    simp only [DeleteBook]
    split <;> simp

end Booking
